import Mathlib

/-!
Verification of the `eurlex-unit-parser` repository: a shallow embedding of the
text utilities, label normalizer, builder state, citation extraction cascade,
citation resolver helpers and post-parse pipeline, together with proofs that
settle the frozen claims about the system.

Each definition mirrors a specific Python function in the source tree, named
after it where Lean permits; the file's doc comments record the source file
and line of each embedded function.
-/

namespace Eurlex

/-! ## Python primitives

Character-level predicates used by the Python regular-expression classes and
string methods exercised by this code base (ASCII range, which is the range
the parsed legal texts use).
-/

/-- Python whitespace (`\s` character class / `str.strip`): space, tab,
newline, carriage return, vertical tab, form feed. -/
def isPySpace (c : Char) : Bool :=
  c == ' ' || c == '\t' || c == '\n' || c == '\r' || c == '\x0b' || c == '\x0c'

mutual

/-- `re.sub(r"\s+", " ", text)`: every maximal run of whitespace becomes a
single space (first half of `text_utils.normalize_text`).  Defined mutually
with `collapseWsSkip` (which drops the rest of a whitespace run) so that the
function is structurally recursive and reduces definitionally. -/
def collapseWs : List Char → List Char
  | [] => []
  | c :: rest =>
    if isPySpace c then ' ' :: collapseWsSkip rest
    else c :: collapseWs rest

def collapseWsSkip : List Char → List Char
  | [] => []
  | c :: rest =>
    if isPySpace c then collapseWsSkip rest
    else c :: collapseWs rest

end

/-- `str.lstrip()` on a character list. -/
def pyStripLeft (l : List Char) : List Char := l.dropWhile isPySpace

/-- `str.rstrip()` on a character list. -/
def pyStripRight (l : List Char) : List Char := (l.reverse.dropWhile isPySpace).reverse

/-- `str.strip()` on a character list. -/
def pyStrip (l : List Char) : List Char := pyStripRight (pyStripLeft l)

/-- `text_utils.normalize_text` (text_utils.py:113-116): collapse whitespace
runs to single spaces, then strip. -/
def normalize_text (s : String) : String := String.mk (pyStrip (collapseWs s.data))

/-- Adjacent-pair relation: not both characters are whitespace. -/
def notBothWs (a b : Char) : Prop := ¬(isPySpace a = true ∧ isPySpace b = true)

/-! ## A small regular-expression engine

The source code drives everything through Python `re` patterns.  We embed the
fragment of `re` the source uses: character classes, sequencing, alternation
(leftmost-preference), greedy `*` / `?` / bounded repetition, named capturing
groups, word boundaries `\b`, lookahead `(?=...)` and `$`.  Matching is the
standard backtracking semantics (first alternative preferred, greedy
quantifiers), implemented in continuation-passing style; `reFindIter` mirrors
`re.finditer` (leftmost, non-overlapping scan).  Each Python pattern of the
source is transcribed literally into this syntax below.
-/

/-- Regular-expression syntax (the fragment used by the source's patterns). -/
inductive RE where
  | eps
  | cls (p : Char → Bool)
  | seq (a b : RE)
  | alt (a b : RE)
  | star (a : RE)
  | opt (a : RE)
  | grp (name : String) (a : RE)
  | wordB
  | look (a : RE)
  | eos

/-- Named-capture environment: most recent capture first (Python keeps the
last participating capture of each group). -/
def Caps := List (String × String)

/-- `match.groupdict().get(name)`: the most recent capture of a named group,
or `none` when the group did not participate in the match. -/
def capGet (caps : Caps) (name : String) : Option String :=
  (List.find? (fun pr => pr.1 == name) caps).map (fun pr => pr.2)

/-- Python `\w` on the ASCII range: letters, digits, underscore. -/
def isWordChar (c : Char) : Bool := c.isAlphanum || c == '_'

/-- Structural size of a pattern, used to compute a sufficient fuel bound. -/
def reSize : RE → Nat
  | .eps => 1
  | .cls _ => 1
  | .seq a b => 1 + reSize a + reSize b
  | .alt a b => 1 + reSize a + reSize b
  | .star a => 1 + reSize a
  | .opt a => 1 + reSize a
  | .grp _ a => 1 + reSize a
  | .wordB => 1
  | .look a => 1 + reSize a
  | .eos => 1

/-- Backtracking matcher in continuation-passing style.  `prev` is the
character just before the current position (for `\b`), `s` the remaining
input.  The continuation receives the new `prev`, the rest of the input and
the captures.  `fuel` is structural (so the function reduces definitionally)
and bounds the depth of descent into the pattern plus the number of `star`
iterations; `(reSize re + 1) * (length + 2)` always suffices because every
`star` iteration consumes at least one character. -/
def reM : Nat → RE → Option Char → List Char → Caps →
    (Option Char → List Char → Caps → Option (List Char × Caps)) →
    Option (List Char × Caps)
  | 0, _, _, _, _, _ => none
  | _ + 1, .eps, prev, s, caps, k => k prev s caps
  | _ + 1, .cls p, _, s, caps, k =>
    match s with
    | [] => none
    | c :: rest => if p c then k (some c) rest caps else none
  | fuel + 1, .seq a b, prev, s, caps, k =>
    reM fuel a prev s caps (fun p2 s2 c2 => reM fuel b p2 s2 c2 k)
  | fuel + 1, .alt a b, prev, s, caps, k =>
    (reM fuel a prev s caps k).orElse (fun _ => reM fuel b prev s caps k)
  | fuel + 1, .opt a, prev, s, caps, k =>
    (reM fuel a prev s caps k).orElse (fun _ => k prev s caps)
  | fuel + 1, .star a, prev, s, caps, k =>
    (reM fuel a prev s caps (fun p2 s2 c2 =>
        if s2.length < s.length then reM fuel (.star a) p2 s2 c2 k else none)).orElse
      (fun _ => k prev s caps)
  | _ + 1, .wordB, prev, s, caps, k =>
    let before := match prev with | some c => isWordChar c | none => false
    let after := match s with | c :: _ => isWordChar c | [] => false
    if before != after then k prev s caps else none
  | fuel + 1, .grp name a, prev, s, caps, k =>
    reM fuel a prev s caps (fun p2 s2 c2 =>
      k p2 s2 ((name, String.mk (s.take (s.length - s2.length))) :: c2))
  | fuel + 1, .look a, prev, s, caps, k =>
    match reM fuel a prev s caps (fun _ s2 c2 => some (s2, c2)) with
    | some _ => k prev s caps
    | none => none
  | _ + 1, .eos, prev, s, caps, k =>
    if s.isEmpty || s == ['\n'] then k prev s caps else none

/-- Run a pattern anchored at the current position; returns the number of
characters consumed and the captures. -/
def reRun (re : RE) (prev : Option Char) (s : List Char) : Option (Nat × Caps) :=
  match reM ((reSize re + 1) * (s.length + 2)) re prev s [] (fun _ s2 c2 => some (s2, c2)) with
  | some (s2, caps) => some (s.length - s2.length, caps)
  | none => none

/-- One `re` match: span `[mstart, mstop)` into the text plus captures. -/
structure RawMatch where
  mstart : Nat
  mstop : Nat
  caps : Caps

/-- Scan for the leftmost match at a position `≥ i` (as `re.search` from
offset `i`); `fuel` counts the remaining start positions. -/
def reScanFromAux (re : RE) (text : List Char) : Nat → Nat → Option RawMatch
  | 0, _ => none
  | fuel + 1, i =>
    if i ≤ text.length then
      let prev := if i = 0 then none else text.get? (i - 1)
      match reRun re prev (text.drop i) with
      | some (n, caps) => some ⟨i, i + n, caps⟩
      | none => reScanFromAux re text fuel (i + 1)
    else none

def reScanFrom (re : RE) (text : List Char) (i : Nat) : Option RawMatch :=
  reScanFromAux re text (text.length + 1 - i) i

/-- `re.finditer`: all leftmost non-overlapping matches, in order (a
zero-width match advances the scan position by one, as in Python). -/
def reFindIterAux (re : RE) (text : List Char) : Nat → Nat → List RawMatch
  | 0, _ => []
  | fuel + 1, i =>
    match reScanFrom re text i with
    | none => []
    | some m =>
      m :: reFindIterAux re text fuel (if m.mstart < m.mstop then m.mstop else m.mstop + 1)

def reFindIter (re : RE) (text : List Char) : List RawMatch :=
  reFindIterAux re text (text.length + 1) 0

/-- `pattern.match(s)` (anchored at the start, as used by `labels.py`). -/
def reMatchStart (re : RE) (s : List Char) : Option RawMatch :=
  match reRun re none s with
  | some (n, caps) => some ⟨0, n, caps⟩
  | none => none

/-! ### Pattern-building helpers -/

/-- Case-insensitive single character (all source patterns are compiled with
`re.IGNORECASE`); `c` is given in lowercase. -/
def chCI (c : Char) : RE := .cls (fun a => a.toLower == c)

/-- Case-insensitive literal string (`s` given in lowercase). -/
def strCI (s : String) : RE := s.data.foldr (fun c r => .seq (chCI c) r) .eps

/-- Sequence of patterns. -/
def rseq (l : List RE) : RE := l.foldr .seq .eps

/-- Alternation over a non-empty list, first-preferred. -/
def ralt : List RE → RE
  | [] => .cls (fun _ => false)
  | [a] => a
  | a :: rest => .alt a (ralt rest)

/-- `x+` (greedy). -/
def rplus (a : RE) : RE := .seq a (.star a)

/-- `x{0,n}` (greedy). -/
def repUpTo (a : RE) : Nat → RE
  | 0 => .eps
  | n + 1 => .opt (.seq a (repUpTo a n))

/-- `x{m,n}` (greedy). -/
def repRange (a : RE) (m n : Nat) : RE :=
  rseq (List.replicate m a) |>.seq (repUpTo a (n - m))

/-- `\d`. -/
def reDigit : RE := .cls Char.isDigit

/-- `[a-z]` under `re.IGNORECASE`. -/
def reAlphaCI : RE := .cls (fun a => 'a' ≤ a.toLower && a.toLower ≤ 'z')

/-- `[a-z0-9]` under `re.IGNORECASE`. -/
def reAlnumCI : RE := .cls (fun a => ('a' ≤ a.toLower && a.toLower ≤ 'z') || a.isDigit)

/-- `\s`. -/
def reWs : RE := .cls isPySpace

/-- `\s+`. -/
def reWsP : RE := rplus reWs

/-- `\s*`. -/
def reWsS : RE := .star reWs

/-- `str.lower()` (ASCII range). -/
def pyLower (s : String) : String := String.mk (s.data.map Char.toLower)

/-! ## Label normalizer (`labels.py`) -/

/-- `PARAGRAPH_NUM_RE = ^(\d+)\.\s*` (labels.py:5). -/
def PARAGRAPH_NUM_RE : RE := rseq [.grp "1" (rplus reDigit), chCI '.', reWsS]

/-- `NUMERIC_LABEL_RE = ^\(?(\d+)\)?[.\)]?$` (labels.py:16). -/
def NUMERIC_LABEL_RE : RE :=
  rseq [.opt (chCI '('), .grp "1" (rplus reDigit), .opt (chCI ')'),
    .opt (.cls (fun c => c == '.' || c == ')')), .eos]

/-- The roman-numeral alternation of `SUBPOINT_LABEL_RE` (labels.py:7-15),
alternatives in source order. -/
def romanAlt : RE :=
  ralt [repRange (chCI 'i') 1 3, strCI "iv", strCI "v",
    .seq (chCI 'v') (repUpTo (chCI 'i') 3), strCI "ix",
    repRange (chCI 'x') 1 3, .seq (chCI 'x') (repUpTo (chCI 'i') 3),
    strCI "xiv", strCI "xv", rseq [chCI 'x', chCI 'v', repUpTo (chCI 'i') 3], strCI "xix",
    rseq [chCI 'x', chCI 'x', repUpTo (chCI 'i') 3], strCI "xxiv", strCI "xxv",
    rseq [chCI 'x', chCI 'x', chCI 'v', repUpTo (chCI 'i') 3], strCI "xxix",
    rseq [chCI 'x', chCI 'x', chCI 'x', repUpTo (chCI 'i') 3], strCI "xxxiv", strCI "xxxv",
    rseq [chCI 'x', chCI 'x', chCI 'x', chCI 'v', repUpTo (chCI 'i') 3], strCI "xxxix"]

/-- `SUBPOINT_LABEL_RE = ^\(?(roman)\)?$` with `re.IGNORECASE` (labels.py:7-15). -/
def SUBPOINT_LABEL_RE : RE :=
  rseq [.opt (chCI '('), .grp "1" romanAlt, .opt (chCI ')'), .eos]

/-- `POINT_LABEL_RE = ^\(?([a-z]{1,2})\)?$` with `re.IGNORECASE` (labels.py:6). -/
def POINT_LABEL_RE : RE :=
  rseq [.opt (chCI '('), .grp "1" (repRange reAlphaCI 1 2), .opt (chCI ')'), .eos]

/-- `DASH_LABEL_RE = ^[—–-]$` (labels.py:17). -/
def DASH_LABEL_RE : RE :=
  rseq [.cls (fun c => c == '—' || c == '–' || c == '-'), .eos]

/-- `QUOTE_CHARS = "'‘’"` (labels.py:18). -/
def QUOTE_CHARS : List Char := ['\'', '‘', '’']

/-- `labels.normalize_label` (labels.py:21-55): strip, peel a leading quote,
then classify in source order paragraph → numeric → subpoint (roman) →
point (alphabetic) → dash → unknown. -/
def normalize_label (label : String) : String × String × Bool :=
  let l0 := pyStrip label.data
  let peeled : Bool × List Char :=
    match l0 with
    | c :: rest => if QUOTE_CHARS.contains c then (true, pyStrip rest) else (false, l0)
    | [] => (false, l0)
  let is_quoted := peeled.1
  let l1 := peeled.2
  match reMatchStart PARAGRAPH_NUM_RE l1 with
  | some m =>
    if !(l1.contains '(') then ((capGet m.caps "1").getD "", "paragraph", is_quoted)
    else nlRest l1 is_quoted
  | none => nlRest l1 is_quoted
where
  /-- The remaining branches of `normalize_label` after the bare-paragraph
  test. -/
  nlRest (l1 : List Char) (is_quoted : Bool) : String × String × Bool :=
    match reMatchStart NUMERIC_LABEL_RE l1 with
    | some m => ((capGet m.caps "1").getD "", "numeric", is_quoted)
    | none =>
      match reMatchStart SUBPOINT_LABEL_RE l1 with
      | some m => (pyLower ((capGet m.caps "1").getD ""), "subpoint", is_quoted)
      | none =>
        match reMatchStart POINT_LABEL_RE l1 with
        | some m => (pyLower ((capGet m.caps "1").getD ""), "point", is_quoted)
        | none =>
          match reMatchStart DASH_LABEL_RE l1 with
          | some _ => ("—", "dash", is_quoted)
          | none => (String.mk l1, "unknown", is_quoted)

/-! ## Decimal rendering (Python `str(int)` / `f"{n:04d}"`) -/

def digitChar (d : Nat) : Char := Char.ofNat (48 + d)

/-- Decimal digits of `n`, most significant first (accumulator form; `n + 1`
fuel always suffices since `n / 10 < n` for `n ≥ 10`). -/
def natCharsAux : Nat → Nat → List Char → List Char
  | 0, _, acc => acc
  | fuel + 1, n, acc =>
    if n < 10 then digitChar n :: acc
    else natCharsAux fuel (n / 10) (digitChar (n % 10) :: acc)

def natChars (n : Nat) : List Char := natCharsAux (n + 1) n []

/-- `str(n)` for a natural number. -/
def natToStr (n : Nat) : String := String.mk (natChars n)

/-- `f"{n:04d}"`: decimal, left-padded with zeros to width 4. -/
def pad4 (n : Nat) : String :=
  String.mk (List.replicate (4 - (natChars n).length) '0' ++ natChars n)

/-- Digit characters back to a number (for `int(...)` on digit strings). -/
def charsToNat (l : List Char) : Nat := l.foldl (fun a c => a * 10 + (c.toNat - 48)) 0

/-! ## Citation data model (`models.py`, class `Citation`) -/

/-- `models.Citation` (models.py:28-116): one reference mention extracted
from a unit's text.  Field names and defaults follow the dataclass. -/
structure Citation where
  raw_text : String
  citation_type : String
  span_start : Nat
  span_end : Nat
  article : Option Nat := none
  article_label : Option String := none
  paragraph : Option Nat := none
  point : Option String := none
  point_range : Option (String × String) := none
  article_range : Option (Nat × Nat) := none
  paragraph_range : Option (Nat × Nat) := none
  subparagraph_ordinal : Option String := none
  subparagraph_index : Option Nat := none
  chapter : Option String := none
  «section» : Option String := none
  title_ref : Option String := none
  annex : Option String := none
  annex_part : Option String := none
  treaty_code : Option String := none
  connective_phrase : Option String := none
  target_node_id : Option String := none
  act_year : Option Nat := none
  act_type : Option String := none
  act_number : Option String := none
  celex : Option String := none
deriving DecidableEq, Repr

/-! ## Citation extractor helpers (`citations.py`, static methods) -/

/-- Python truthiness of an optional string (`if point:` and friends). -/
def optTruthy : Option String → Bool
  | some s => !s.isEmpty
  | none => false

/-- `_ORDINALS` (citations.py:17). -/
def ordinalsSet : List String := ["first", "second", "third", "fourth", "fifth"]

/-- `_parse_article` (citations.py:1091-1102): full-match `\d+[a-z]?` on the
stripped lowercase token; returns the numeric prefix and the label. -/
def parse_article : Option String → Option Nat × Option String
  | none => (none, none)
  | some s =>
    let normalized := (pyLower (String.mk (pyStrip s.data))).data
    let ds := normalized.takeWhile Char.isDigit
    let rest := normalized.dropWhile Char.isDigit
    let fullOk : Bool := !ds.isEmpty &&
      (rest.isEmpty || (rest.length == 1 && rest.all (fun c => 'a' ≤ c && c ≤ 'z')))
    if fullOk then (some (charsToNat ds), some (String.mk normalized))
    else (none, none)

/-- `_parse_int` (citations.py:1104-1108): `int(v)` when `v.isdigit()`. -/
def parse_int : Option String → Option Nat
  | none => none
  | some s => if !s.data.isEmpty && s.data.all Char.isDigit then some (charsToNat s.data) else none

/-- `_normalize_point` (citations.py:1110-1114). -/
def normalize_point : Option String → Option String
  | none => none
  | some s => some (pyLower (String.mk (pyStrip s.data)))

/-- `_normalize_ordinal` (citations.py:1116-1123). -/
def normalize_ordinal : Option String → Option String
  | none => none
  | some s =>
    let n := pyLower (String.mk (pyStrip s.data))
    if ordinalsSet.contains n then some n else none

/-- `_parse_point_range` (citations.py:1125-1131). -/
def parse_point_range (start stop : Option String) : Option (String × String) :=
  match normalize_point start, normalize_point stop with
  | some a, some b => some (a, b)
  | _, _ => none

/-- `_normalize_act_type` (citations.py:1133-1144). -/
def normalize_act_type : Option String → Option String
  | none => none
  | some s =>
    let n := pyLower (String.mk (pyStrip s.data))
    if n == "regulation" then some "regulation"
    else if n == "directive" then some "directive"
    else if n == "decision" then some "decision"
    else none

/-- `_ordinal_to_int` (citations.py:1146-1150). -/
def ordinal_to_int (s : String) : Option Nat :=
  let n := pyLower (String.mk (pyStrip s.data))
  if n == "first" then some 1
  else if n == "second" then some 2
  else if n == "third" then some 3
  else if n == "fourth" then some 4
  else if n == "fifth" then some 5
  else none

/-- `_parse_act_year_number` (citations.py:1152-1167): heuristic year/number
disambiguation for `NNN/NNNN`-style act numbers. -/
def parse_act_year_number (part1 part2 : String) : Option (Nat × Nat) :=
  let p1 := charsToNat part1.data
  let p2 := charsToNat part2.data
  if 1900 < p1 && p1 ≤ 2100 then some (p1, p2)
  else if 1900 < p2 && p2 ≤ 2100 then some (p2, p1)
  else if p1 < 100 && p2 < 1000 then some (1900 + p1, p2)
  else if p2 < 100 && p1 ≥ 100 then some (1900 + p2, p1)
  else if p1 ≥ 1000 && p2 < 1000 then some (p1, p2)
  else none

/-- `_to_celex` (citations.py:1169-1175): sector-3 CELEX code. -/
def to_celex (act_type : String) (year number : Nat) : Option String :=
  let code : Option String :=
    if act_type == "regulation" then some "R"
    else if act_type == "directive" then some "L"
    else if act_type == "decision" then some "D"
    else none
  match code with
  | none => none
  | some c => some ("3" ++ pad4 year ++ c ++ pad4 number)

/-- `_to_node_id` (citations.py:1177-1202): candidate node id from citation
components (arguments in source order). -/
def to_node_id (article_label : Option String) (paragraph : Option Nat)
    (point : Option String) (subparagraph : Option String)
    (annex : Option String) (annex_part : Option String) : Option String :=
  let parts : List String :=
    (match article_label with | some al => ["art-" ++ al] | none => []) ++
    (match paragraph with | some p => ["par-" ++ natToStr p] | none => []) ++
    (if optTruthy subparagraph && paragraph.isSome then
       match subparagraph with
       | some sp =>
         match ordinal_to_int sp with
         | some i => ["subpar-" ++ natToStr i]
         | none => []
       | none => []
     else []) ++
    (if optTruthy point then ["pt-" ++ point.getD ""] else []) ++
    (if optTruthy annex then ["annex-" ++ annex.getD ""] else []) ++
    (if optTruthy annex_part then ["part-" ++ annex_part.getD ""] else [])
  if parts.isEmpty then none else some (String.intercalate "." parts)

/-! ## The citation patterns (`citations.py:62-354`), transcribed literally -/

/-- `\d+[a-z]?` (article tokens inside the patterns). -/
def reArticleNum : RE := .seq (rplus reDigit) (.opt reAlphaCI)

/-- `first|second|third|fourth|fifth`. -/
def ordinalAlt : RE :=
  ralt [strCI "first", strCI "second", strCI "third", strCI "fourth", strCI "fifth"]

/-- `(?=[^\w]|$)`. -/
def lookNW : RE := .look (.alt (.cls (fun c => !isWordChar c)) .eos)

/-- `[IVXLCDM]+` under `re.IGNORECASE`. -/
def romanCls : RE := rplus (.cls (fun c => ("ivxlcdm".data).contains c.toLower))

/-- `[A-Z]` under `re.IGNORECASE` (both cases match). -/
def upperCI : RE := reAlphaCI

/-- `_ACT_FRAGMENT` (citations.py:62-68). -/
def ACT_FRAGMENT : RE :=
  .grp "act" (rseq [
    .opt (rseq [strCI "council", reWsP]),
    .opt (rseq [strCI "commission", reWsP]),
    .opt (.alt (rseq [strCI "delegated", reWsP]) (rseq [strCI "implementing", reWsP])),
    .opt (.grp "framework" (rseq [strCI "framework", reWsP])),
    .grp "act_kind" (ralt [strCI "regulation", strCI "directive", strCI "decision"]),
    reWsP,
    .opt (rseq [chCI '(', ralt [strCI "eu", strCI "ec", strCI "eec"], chCI ')', reWsP]),
    .opt (rseq [strCI "no", reWsP]),
    .grp "act_part1" (repRange reDigit 2 4),
    chCI '/',
    .grp "act_part2" (rplus reDigit),
    .opt (rseq [chCI '/', .grp "act_suffix" (repRange upperCI 2 4)])])

/-- `_EXTERNAL_WITH_ARTICLE_POINT_FIRST` (citations.py:70-80). -/
def EXTERNAL_WITH_ARTICLE_POINT_FIRST : RE :=
  rseq [.wordB, strCI "point", reWsP, chCI '(', .grp "point" (rplus reAlnumCI), chCI ')',
    reWsP, strCI "of", reWsP,
    .opt (rseq [strCI "the", reWsP, .grp "subparagraph" ordinalAlt, reWsP,
      strCI "subparagraph", reWsP, strCI "of", reWsP]),
    strCI "article", reWsP, .grp "article" reArticleNum,
    .opt (rseq [.opt reWs, chCI '(', .grp "paragraph" (rplus reDigit), chCI ')']),
    .opt (rseq [.opt reWs, chCI '(', .grp "point_inline" (rplus reAlnumCI), chCI ')']),
    reWsP, strCI "of", reWsP, ACT_FRAGMENT, .wordB]

/-- `_EXTERNAL_WITH_ARTICLE_ARTICLE_FIRST` (citations.py:82-95). -/
def EXTERNAL_WITH_ARTICLE_ARTICLE_FIRST : RE :=
  rseq [.wordB, strCI "article", reWsP, .grp "article" reArticleNum,
    .opt (rseq [.opt reWs, chCI '(', .grp "paragraph" (rplus reDigit), chCI ')']),
    .opt (rseq [.opt reWs, chCI '(', .grp "point_inline" (rplus reAlnumCI), chCI ')']),
    .opt (rseq [reWsS, chCI ',', reWsS, .grp "paragraph_ordinal" ordinalAlt, reWsP,
      strCI "paragraph"]),
    .opt (.alt
      (rseq [chCI ',', reWsS, strCI "point", reWsP, chCI '(',
        .grp "point_comma" (rplus reAlnumCI), chCI ')'])
      (rseq [chCI ',', reWsS, strCI "points", reWsP, chCI '(',
        .grp "point_range_start" (rplus reAlnumCI), chCI ')', reWsP, strCI "to", reWsP,
        chCI '(', .grp "point_range_end" (rplus reAlnumCI), chCI ')'])),
    reWsS, .opt (chCI ','), reWsS, strCI "of", reWsP, ACT_FRAGMENT, .wordB]

/-- `_EXTERNAL_STANDALONE` (citations.py:97-100). -/
def EXTERNAL_STANDALONE : RE := rseq [.wordB, ACT_FRAGMENT, .wordB]

/-- `_TREATY_TFEU_TEU_SHORT` (citations.py:102-109). -/
def TREATY_TFEU_TEU_SHORT : RE :=
  rseq [.wordB, strCI "article", reWsP, .grp "article" reArticleNum,
    .opt (rseq [.opt reWs, chCI '(', .grp "paragraph" (rplus reDigit), chCI ')']),
    reWsP, .grp "treaty" (ralt [strCI "tfeu", strCI "teu"]), .wordB]

/-- `_TREATY_LONG_TFEU` (citations.py:111-118). -/
def TREATY_LONG_TFEU : RE :=
  rseq [.wordB, strCI "article", reWsP, .grp "article" reArticleNum,
    .opt (rseq [.opt reWs, chCI '(', .grp "paragraph" (rplus reDigit), chCI ')']),
    reWsP, strCI "of", reWsP, strCI "the", reWsP, strCI "treaty", reWsP, strCI "on", reWsP,
    strCI "the", reWsP, strCI "functioning", reWsP, strCI "of", reWsP, strCI "the", reWsP,
    strCI "european", reWsP, strCI "union", .wordB]

/-- `_TREATY_LONG_TEU` (citations.py:120-127). -/
def TREATY_LONG_TEU : RE :=
  rseq [.wordB, strCI "article", reWsP, .grp "article" reArticleNum,
    .opt (rseq [.opt reWs, chCI '(', .grp "paragraph" (rplus reDigit), chCI ')']),
    reWsP, strCI "of", reWsP, strCI "the", reWsP, strCI "treaty", reWsP, strCI "on", reWsP,
    strCI "european", reWsP, strCI "union", .wordB]

/-- `_TREATY_LONG_GENERIC` (citations.py:129-136). -/
def TREATY_LONG_GENERIC : RE :=
  rseq [.wordB, strCI "article", reWsP, .grp "article" reArticleNum,
    .opt (rseq [.opt reWs, chCI '(', .grp "paragraph" (rplus reDigit), chCI ')']),
    reWsP, strCI "of", reWsP, strCI "the", reWsP, strCI "treaty",
    .opt (rseq [reWsP, strCI "establishing", reWsP, strCI "the", reWsP, strCI "european",
      reWsP, strCI "community"]),
    .wordB]

/-- `_TREATY_CHARTER` (citations.py:138-145). -/
def TREATY_CHARTER : RE :=
  rseq [.wordB, strCI "article", reWsP, .grp "article" reArticleNum,
    .opt (rseq [.opt reWs, chCI '(', .grp "paragraph" (rplus reDigit), chCI ')']),
    reWsP, strCI "of", reWsP, strCI "the", reWsP, strCI "charter", reWsP, strCI "of", reWsP,
    strCI "fundamental", reWsP, strCI "rights", .wordB]

/-- `_TREATY_PROTOCOL` (citations.py:147-150). -/
def TREATY_PROTOCOL : RE :=
  rseq [.wordB, strCI "protocol", reWsP, strCI "no", reWsP, .grp "protocol" (rplus reDigit),
    .wordB]

/-- `_INTERNAL_ARTICLE_POINT_RANGE_ARTICLE_FIRST` (citations.py:152-160). -/
def INTERNAL_ARTICLE_POINT_RANGE_ARTICLE_FIRST : RE :=
  rseq [.wordB, strCI "article", reWsP, .grp "article" reArticleNum,
    .opt (rseq [.opt reWs, chCI '(', .grp "paragraph" (rplus reDigit), chCI ')']),
    reWsS, chCI ',', reWsS, strCI "points", reWsP, chCI '(',
    .grp "point_start" (rplus reAlnumCI), chCI ')', reWsP, strCI "to", reWsP, chCI '(',
    .grp "point_end" (rplus reAlnumCI), chCI ')', lookNW]

/-- `_INTERNAL_ARTICLE_POINT_RANGE_POINT_FIRST` (citations.py:162-170). -/
def INTERNAL_ARTICLE_POINT_RANGE_POINT_FIRST : RE :=
  rseq [.wordB, strCI "points", reWsP, chCI '(', .grp "point_start" (rplus reAlnumCI),
    chCI ')', reWsP, strCI "to", reWsP, chCI '(', .grp "point_end" (rplus reAlnumCI),
    chCI ')', reWsP, strCI "of", reWsP, strCI "article", reWsP, .grp "article" reArticleNum,
    .opt (rseq [.opt reWs, chCI '(', .grp "paragraph" (rplus reDigit), chCI ')']),
    lookNW]

/-- `_INTERNAL_ARTICLE_POINT` (citations.py:172-180). -/
def INTERNAL_ARTICLE_POINT : RE :=
  rseq [.wordB, strCI "article", reWsP, .grp "article" reArticleNum,
    .opt (rseq [.opt reWs, chCI '(', .grp "paragraph" (rplus reDigit), chCI ')']),
    reWsS, chCI ',', reWsS, strCI "point", reWsP, chCI '(',
    .grp "point" (rplus reAlnumCI), chCI ')', lookNW]

/-- `_INTERNAL_POINT_OF_ARTICLE` (citations.py:182-189). -/
def INTERNAL_POINT_OF_ARTICLE : RE :=
  rseq [.wordB, strCI "point", reWsP, chCI '(', .grp "point" (rplus reAlnumCI), chCI ')',
    reWsP, strCI "of", reWsP, strCI "article", reWsP, .grp "article" reArticleNum,
    .opt (rseq [.opt reWs, chCI '(', .grp "paragraph" (rplus reDigit), chCI ')']),
    lookNW]

/-- `_INTERNAL_ARTICLE_RANGE` (citations.py:191-194). -/
def INTERNAL_ARTICLE_RANGE : RE :=
  rseq [.wordB, strCI "articles", reWsP, .grp "range_start" (rplus reDigit), reWsP,
    strCI "to", reWsP, .grp "range_end" (rplus reDigit), .wordB]

/-- `_INTERNAL_ARTICLE_ENUMERATION` (citations.py:196-199):
`Articles\s+(?P<enum_body>\d+[a-z]?(?:\s*,\s*\d+[a-z]?)*\s*(?:,\s*)?(?:and|or)\s+\d+[a-z]?)\b`. -/
def INTERNAL_ARTICLE_ENUMERATION : RE :=
  rseq [.wordB, strCI "articles", reWsP,
    .grp "enum_body" (rseq [reArticleNum,
      .star (rseq [reWsS, chCI ',', reWsS, reArticleNum]),
      reWsS, .opt (rseq [chCI ',', reWsS]),
      .alt (strCI "and") (strCI "or"), reWsP, reArticleNum]),
    .wordB]

/-- `_INTERNAL_ARTICLE_OR` (citations.py:201-210). -/
def INTERNAL_ARTICLE_OR : RE :=
  rseq [.wordB, strCI "article", reWsP, .grp "article1" reArticleNum,
    .opt (rseq [.opt reWs, chCI '(', .grp "paragraph1" (rplus reDigit), chCI ')']),
    reWsP, strCI "or", reWsP, .opt (rseq [strCI "article", reWsP]),
    .grp "article2" reArticleNum,
    .opt (rseq [.opt reWs, chCI '(', .grp "paragraph2" (rplus reDigit), chCI ')']),
    lookNW]

/-- `_INTERNAL_ARTICLE_MULTI_PARAGRAPH` (citations.py:212-215). -/
def INTERNAL_ARTICLE_MULTI_PARAGRAPH : RE :=
  rseq [.wordB, strCI "article", reWsP, .grp "article" reArticleNum, reWsS, chCI '(',
    .grp "paragraph" (rplus reDigit), chCI ')', reWsP, strCI "and", reWsP, chCI '(',
    .grp "paragraph_second" (rplus reDigit), chCI ')', lookNW]

/-- `_INTERNAL_ARTICLE_SIMPLE` (citations.py:217-225). -/
def INTERNAL_ARTICLE_SIMPLE : RE :=
  rseq [.wordB, strCI "article", reWsP, .grp "article" reArticleNum,
    .opt (rseq [.opt reWs, chCI '(', .grp "paragraph" (rplus reDigit), chCI ')']),
    .opt (rseq [.opt reWs, chCI '(', .grp "point_inline" (rplus reAlnumCI), chCI ')']),
    lookNW]

/-- `_INTERNAL_PARAGRAPH_RANGE` (citations.py:227-230). -/
def INTERNAL_PARAGRAPH_RANGE : RE :=
  rseq [.wordB, strCI "paragraph", .opt (chCI 's'), reWsP,
    .grp "para_start" (rplus reDigit), reWsP,
    ralt [strCI "to", strCI "and", strCI "or"], reWsP,
    .grp "para_end" (rplus reDigit), .wordB]

/-- `_INTERNAL_PARAGRAPH_ENUMERATION` (citations.py:232-235). -/
def INTERNAL_PARAGRAPH_ENUMERATION : RE :=
  rseq [.wordB, strCI "paragraphs", reWsP,
    .grp "enum_body" (rseq [rplus reDigit,
      .star (rseq [reWsS, chCI ',', reWsS, rplus reDigit]),
      reWsS, .opt (rseq [chCI ',', reWsS]),
      .alt (strCI "and") (strCI "or"), reWsP, rplus reDigit]),
    .wordB]

/-- `_INTERNAL_PARAGRAPH_OF_THIS_ARTICLE` (citations.py:237-240). -/
def INTERNAL_PARAGRAPH_OF_THIS_ARTICLE : RE :=
  rseq [.wordB, strCI "paragraph", reWsP, .grp "paragraph" (rplus reDigit), reWsP,
    strCI "of", reWsP, strCI "this", reWsP, strCI "article", .wordB]

/-- `_INTERNAL_PARAGRAPH_SIMPLE` (citations.py:242-245). -/
def INTERNAL_PARAGRAPH_SIMPLE : RE :=
  rseq [.wordB, strCI "paragraph", reWsP, .grp "paragraph" (rplus reDigit), .wordB]

/-- `_INTERNAL_POINT_ENUMERATION` (citations.py:247-257). -/
def INTERNAL_POINT_ENUMERATION : RE :=
  rseq [.wordB, strCI "points", reWsP,
    .grp "enum_body" (rseq [chCI '(', rplus reAlnumCI, chCI ')',
      .star (rseq [reWsS, chCI ',', reWsS, chCI '(', rplus reAlnumCI, chCI ')']),
      reWsS, .opt (rseq [chCI ',', reWsS]),
      .alt (strCI "and") (strCI "or"), reWsP, chCI '(', rplus reAlnumCI, chCI ')'])]

/-- `_INTERNAL_POINT_OF_SUBPARAGRAPH` (citations.py:259-268). -/
def INTERNAL_POINT_OF_SUBPARAGRAPH : RE :=
  rseq [.wordB, strCI "point", reWsP, chCI '(', .grp "point" (rplus reAlnumCI), chCI ')',
    reWsP, strCI "of", reWsP, strCI "the", reWsP, .grp "ordinal" ordinalAlt, reWsP,
    strCI "subparagraph",
    .opt (rseq [reWsP, strCI "of", reWsP, strCI "paragraph", reWsP,
      .grp "paragraph" (rplus reDigit)]),
    .opt (rseq [reWsP, strCI "of", reWsP, strCI "this", reWsP, strCI "article"]),
    lookNW]

/-- `_INTERNAL_SUBPARAGRAPH_COMMA_POINT` (citations.py:270-277). -/
def INTERNAL_SUBPARAGRAPH_COMMA_POINT : RE :=
  rseq [.wordB, strCI "the", reWsP, .grp "ordinal" ordinalAlt, reWsP, strCI "subparagraph",
    reWsS, chCI ',', reWsS, strCI "point", reWsP, chCI '(',
    .grp "point" (rplus reAlnumCI), chCI ')', lookNW]

/-- `_INTERNAL_SUBPARAGRAPH_PAIR_THIS_PARAGRAPH` (citations.py:279-286). -/
def INTERNAL_SUBPARAGRAPH_PAIR_THIS_PARAGRAPH : RE :=
  rseq [.wordB, strCI "the", reWsP, .grp "first_ord" ordinalAlt, reWsP, strCI "and", reWsP,
    .grp "second_ord" ordinalAlt, reWsP, strCI "subparagraphs", reWsP, strCI "of", reWsP,
    strCI "this", reWsP, strCI "paragraph", .wordB]

/-- `_INTERNAL_SUBPARAGRAPH_ARTICLE_FIRST` (citations.py:288-295). -/
def INTERNAL_SUBPARAGRAPH_ARTICLE_FIRST : RE :=
  rseq [.wordB, strCI "article", reWsP, .grp "article" reArticleNum,
    .opt (rseq [.opt reWs, chCI '(', .grp "paragraph" (rplus reDigit), chCI ')']),
    reWsS, chCI ',', reWsS, .grp "ordinal" ordinalAlt, reWsP, strCI "subparagraph", .wordB]

/-- `_INTERNAL_SUBPARAGRAPH_OF_ARTICLE` (citations.py:297-304). -/
def INTERNAL_SUBPARAGRAPH_OF_ARTICLE : RE :=
  rseq [.wordB, strCI "the", reWsP, .grp "ordinal" ordinalAlt, reWsP, strCI "subparagraph",
    reWsP, strCI "of", reWsP, strCI "article", reWsP, .grp "article" reArticleNum,
    .opt (rseq [.opt reWs, chCI '(', .grp "paragraph" (rplus reDigit), chCI ')']),
    .wordB]

/-- `_INTERNAL_SUBPARAGRAPH_OF_PARAGRAPH` (citations.py:306-314). -/
def INTERNAL_SUBPARAGRAPH_OF_PARAGRAPH : RE :=
  rseq [.wordB, strCI "the", reWsP, .grp "ordinal" ordinalAlt, reWsP, strCI "subparagraph",
    reWsP, strCI "of", reWsP, strCI "paragraph", reWsP, .grp "paragraph" (rplus reDigit),
    .opt (rseq [reWsP, strCI "of", reWsP, strCI "this", reWsP, strCI "article"]),
    lookNW]

/-- `_INTERNAL_SUBPARAGRAPH_SIMPLE` (citations.py:316-319). -/
def INTERNAL_SUBPARAGRAPH_SIMPLE : RE :=
  rseq [.wordB, strCI "the", reWsP, .grp "ordinal" ordinalAlt, reWsP, strCI "subparagraph",
    .wordB]

/-- `_INTERNAL_CHAPTER_SECTION_TITLE` (citations.py:321-324). -/
def INTERNAL_CHAPTER_SECTION_TITLE : RE :=
  rseq [.wordB, .grp "kind" (ralt [strCI "chapter", strCI "section", strCI "title"]),
    reWsP, .grp "roman" romanCls, .wordB]

/-- `_INTERNAL_THIS_CHAPTER_SECTION_TITLE` (citations.py:326-329). -/
def INTERNAL_THIS_CHAPTER_SECTION_TITLE : RE :=
  rseq [.wordB, strCI "this", reWsP,
    .grp "kind" (ralt [strCI "chapter", strCI "section", strCI "title"]), .wordB]

/-- `_INTERNAL_ANNEX_SECTION_OF_ANNEX` (citations.py:331-334). -/
def INTERNAL_ANNEX_SECTION_OF_ANNEX : RE :=
  rseq [.wordB, strCI "section", reWsP, .grp "section_letter" upperCI, reWsP, strCI "of",
    reWsP, strCI "annex", reWsP, .grp "annex" romanCls, .wordB]

/-- `_INTERNAL_ANNEX_WITH_PART` (citations.py:336-339). -/
def INTERNAL_ANNEX_WITH_PART : RE :=
  rseq [.wordB, strCI "annex", reWsP, .grp "annex" romanCls, reWsS, .opt (chCI ','), reWsP,
    strCI "part", reWsP, .grp "part" upperCI, .wordB]

/-- `_INTERNAL_ANNEX_MULTIPLE` (citations.py:341-344). -/
def INTERNAL_ANNEX_MULTIPLE : RE :=
  rseq [.wordB, strCI "annexes", reWsP, .grp "annex_first" romanCls, reWsS, .opt (chCI ','),
    reWsP, strCI "and", reWsP, .grp "annex_second" romanCls, .wordB]

/-- `_INTERNAL_ANNEX_SIMPLE` (citations.py:346-349). -/
def INTERNAL_ANNEX_SIMPLE : RE :=
  rseq [.wordB, strCI "annex", .opt (strCI "es"), reWsP, .grp "annex" romanCls, .wordB]

/-- `_RELATIVE_REFERENCE` (citations.py:351-354). -/
def RELATIVE_REFERENCE : RE :=
  .alt
    (rseq [.wordB, .alt (strCI "this") (strCI "that"), reWsP,
      ralt [strCI "regulation", strCI "directive", strCI "decision", strCI "article",
        strCI "paragraph"],
      .wordB])
    (rseq [.wordB, strCI "thereof", .wordB])

/-! ## Citation builders (`citations.py:442-1062`) -/

/-- `str.upper()` (ASCII range). -/
def pyUpper (s : String) : String := String.mk (s.data.map Char.toUpper)

/-- Substring `text[s:e]` of the unit text. -/
def subStr (text : List Char) (s e : Nat) : String := String.mk ((text.drop s).take (e - s))

/-- `bool((v or "").strip())`: optional string that is non-empty after strip. -/
def truthyStripped : Option String → Bool
  | some s => !(pyStrip s.data).isEmpty
  | none => false

/-- `re.findall(r"\d+[a-z]?", body)` (case-sensitive, citations.py:639). -/
def findallNumTokAux : Nat → List Char → List String
  | 0, _ => []
  | _, [] => []
  | fuel + 1, c :: rest =>
    if c.isDigit then
      let ds := (c :: rest).takeWhile Char.isDigit
      let rest2 := (c :: rest).dropWhile Char.isDigit
      match rest2 with
      | d :: rest3 =>
        if 'a' ≤ d && d ≤ 'z' then String.mk (ds ++ [d]) :: findallNumTokAux fuel rest3
        else String.mk ds :: findallNumTokAux fuel rest2
      | [] => [String.mk ds]
    else findallNumTokAux fuel rest

def findallNumTok (s : String) : List String := findallNumTokAux (s.length + 1) s.data

/-- `[a-z0-9]` (case-sensitive). -/
def isLowerDigit (c : Char) : Bool := ('a' ≤ c && c ≤ 'z') || c.isDigit

/-- `re.findall(r"\(([a-z0-9]+)\)", body)` (citations.py:746). -/
def findallParenTokAux : Nat → List Char → List String
  | 0, _ => []
  | _, [] => []
  | fuel + 1, c :: rest =>
    if c == '(' then
      let run := rest.takeWhile isLowerDigit
      let rest2 := rest.dropWhile isLowerDigit
      match rest2 with
      | ')' :: rest3 =>
        if !run.isEmpty then String.mk run :: findallParenTokAux fuel rest3
        else findallParenTokAux fuel rest
      | _ => findallParenTokAux fuel rest
    else findallParenTokAux fuel rest

def findallParenTok (s : String) : List String := findallParenTokAux (s.length + 1) s.data

/-- `re.findall(r"\d+", body)` (citations.py:769). -/
def findallDigitsAux : Nat → List Char → List String
  | 0, _ => []
  | _, [] => []
  | fuel + 1, c :: rest =>
    if c.isDigit then
      String.mk ((c :: rest).takeWhile Char.isDigit) ::
        findallDigitsAux fuel ((c :: rest).dropWhile Char.isDigit)
    else findallDigitsAux fuel rest

def findallDigits (s : String) : List String := findallDigitsAux (s.length + 1) s.data

/-- `_build_external_with_article` (citations.py:442-501). -/
def build_external_with_article (m : RawMatch) (text : List Char) : List Citation :=
  match normalize_act_type (capGet m.caps "act_kind") with
  | none => []
  | some act_type =>
    let act_part1 := (capGet m.caps "act_part1").getD ""
    let act_part2 := (capGet m.caps "act_part2").getD ""
    let act_number := act_part1 ++ "/" ++ act_part2
    let art := parse_article (capGet m.caps "article")
    let paragraph0 := parse_int (capGet m.caps "paragraph")
    let subparagraph_ordinal := normalize_ordinal (capGet m.caps "subparagraph")
    let paragraph_ordinal := normalize_ordinal (capGet m.caps "paragraph_ordinal")
    let paragraph :=
      match paragraph0, paragraph_ordinal with
      | none, some po => ordinal_to_int po
      | p, _ => p
    let point := normalize_point
      (((capGet m.caps "point").orElse fun _ => capGet m.caps "point_comma").orElse
        fun _ => capGet m.caps "point_inline")
    let point_range :=
      parse_point_range (capGet m.caps "point_range_start") (capGet m.caps "point_range_end")
    let parsed := parse_act_year_number act_part1 act_part2
    let is_framework := truthyStripped (capGet m.caps "framework")
    let act_year := parsed.map (fun pr => pr.1)
    let celex :=
      match parsed with
      | some (year, number) => if is_framework then none else to_celex act_type year number
      | none => none
    [{ raw_text := subStr text m.mstart m.mstop
       citation_type := "eu_legislation"
       span_start := m.mstart
       span_end := m.mstop
       article := art.1
       article_label := art.2
       paragraph := paragraph
       point := point
       point_range := point_range
       subparagraph_ordinal := subparagraph_ordinal
       target_node_id := to_node_id art.2 paragraph point subparagraph_ordinal none none
       act_year := act_year
       act_type := some act_type
       act_number := some act_number
       celex := celex }]

/-- `_build_external_standalone` (citations.py:503-533). -/
def build_external_standalone (m : RawMatch) (text : List Char) : List Citation :=
  match normalize_act_type (capGet m.caps "act_kind") with
  | none => []
  | some act_type =>
    let act_part1 := (capGet m.caps "act_part1").getD ""
    let act_part2 := (capGet m.caps "act_part2").getD ""
    let act_number := act_part1 ++ "/" ++ act_part2
    let parsed := parse_act_year_number act_part1 act_part2
    let is_framework := truthyStripped (capGet m.caps "framework")
    let act_year := parsed.map (fun pr => pr.1)
    let celex :=
      match parsed with
      | some (year, number) => if is_framework then none else to_celex act_type year number
      | none => none
    [{ raw_text := subStr text m.mstart m.mstop
       citation_type := "eu_legislation"
       span_start := m.mstart
       span_end := m.mstop
       act_year := act_year
       act_type := some act_type
       act_number := some act_number
       celex := celex }]

/-- `_build_treaty_citation` (citations.py:562-577). -/
def build_treaty_citation (m : RawMatch) (text : List Char) (treaty_code : String) :
    List Citation :=
  let art := parse_article (capGet m.caps "article")
  [{ raw_text := subStr text m.mstart m.mstop
     citation_type := "eu_legislation"
     span_start := m.mstart
     span_end := m.mstop
     article := art.1
     article_label := art.2
     paragraph := parse_int (capGet m.caps "paragraph")
     treaty_code := some treaty_code
     target_node_id := none }]

/-- `_build_treaty_short` (citations.py:535-537). -/
def build_treaty_short (m : RawMatch) (text : List Char) : List Citation :=
  build_treaty_citation m text (pyUpper ((capGet m.caps "treaty").getD ""))

/-- `_build_treaty_tfeu_long` (citations.py:539-540). -/
def build_treaty_tfeu_long (m : RawMatch) (text : List Char) : List Citation :=
  build_treaty_citation m text "TFEU"

/-- `_build_treaty_teu_long` (citations.py:542-543). -/
def build_treaty_teu_long (m : RawMatch) (text : List Char) : List Citation :=
  build_treaty_citation m text "TEU"

/-- `_build_treaty_generic` (citations.py:545-546). -/
def build_treaty_generic (m : RawMatch) (text : List Char) : List Citation :=
  build_treaty_citation m text "TREATY_GENERIC"

/-- `_build_treaty_charter` (citations.py:548-549). -/
def build_treaty_charter (m : RawMatch) (text : List Char) : List Citation :=
  build_treaty_citation m text "CHARTER"

/-- `_build_treaty_protocol` (citations.py:551-560). -/
def build_treaty_protocol (m : RawMatch) (text : List Char) : List Citation :=
  [{ raw_text := subStr text m.mstart m.mstop
     citation_type := "eu_legislation"
     span_start := m.mstart
     span_end := m.mstop
     treaty_code := some "PROTOCOL"
     act_number := capGet m.caps "protocol" }]

/-- `_build_internal_article_point_range` (citations.py:579-596). -/
def build_internal_article_point_range (m : RawMatch) (text : List Char) : List Citation :=
  let art := parse_article (capGet m.caps "article")
  let paragraph := parse_int (capGet m.caps "paragraph")
  [{ raw_text := subStr text m.mstart m.mstop
     citation_type := "internal"
     span_start := m.mstart
     span_end := m.mstop
     article := art.1
     article_label := art.2
     paragraph := paragraph
     point_range := parse_point_range (capGet m.caps "point_start") (capGet m.caps "point_end")
     target_node_id := to_node_id art.2 paragraph none none none none }]

/-- `_build_internal_article_point` (citations.py:598-615). -/
def build_internal_article_point (m : RawMatch) (text : List Char) : List Citation :=
  let art := parse_article (capGet m.caps "article")
  let paragraph := parse_int (capGet m.caps "paragraph")
  let point := normalize_point (capGet m.caps "point")
  [{ raw_text := subStr text m.mstart m.mstop
     citation_type := "internal"
     span_start := m.mstart
     span_end := m.mstop
     article := art.1
     article_label := art.2
     paragraph := paragraph
     point := point
     target_node_id := to_node_id art.2 paragraph point none none none }]

/-- `_build_internal_article_range` (citations.py:617-634). -/
def build_internal_article_range (m : RawMatch) (text : List Char) : List Citation :=
  let range_start :=
    parse_int ((capGet m.caps "range_start").orElse fun _ => capGet m.caps "enum_start")
  let range_end :=
    parse_int ((capGet m.caps "range_end").orElse fun _ => capGet m.caps "enum_end")
  let article_range :=
    match range_start, range_end with
    | some a, some b => some (a, b)
    | _, _ => none
  [{ raw_text := subStr text m.mstart m.mstop
     citation_type := "internal"
     span_start := m.mstart
     span_end := m.mstop
     article_range := article_range
     target_node_id := none }]

/-- `_build_internal_article_enumeration` (citations.py:636-661). -/
def build_internal_article_enumeration (m : RawMatch) (text : List Char) : List Citation :=
  let enum_body := (capGet m.caps "enum_body").getD ""
  (findallNumTok enum_body).filterMap fun token =>
    let art := parse_article (some token)
    match art.2 with
    | none => none
    | some _ =>
      some { raw_text := subStr text m.mstart m.mstop
             citation_type := "internal"
             span_start := m.mstart
             span_end := m.mstop
             article := art.1
             article_label := art.2
             target_node_id := to_node_id art.2 none none none none none }

/-- `_build_internal_article_or` (citations.py:663-694). -/
def build_internal_article_or (m : RawMatch) (text : List Char) : List Citation :=
  let article_tokens : List (Option String × Option String) :=
    [(capGet m.caps "article1", capGet m.caps "paragraph1"),
     (capGet m.caps "article2", capGet m.caps "paragraph2")]
  article_tokens.filterMap fun pr =>
    let art := parse_article pr.1
    match art.2 with
    | none => none
    | some _ =>
      let paragraph := parse_int pr.2
      some { raw_text := subStr text m.mstart m.mstop
             citation_type := "internal"
             span_start := m.mstart
             span_end := m.mstop
             article := art.1
             article_label := art.2
             paragraph := paragraph
             target_node_id := to_node_id art.2 paragraph none none none none }

/-- `_build_internal_article_multi_paragraph` (citations.py:696-722). -/
def build_internal_article_multi_paragraph (m : RawMatch) (text : List Char) : List Citation :=
  let art := parse_article (capGet m.caps "article")
  let first_paragraph := parse_int (capGet m.caps "paragraph")
  let second_paragraph := parse_int (capGet m.caps "paragraph_second")
  [first_paragraph, second_paragraph].filterMap fun paragraph =>
    match paragraph with
    | none => none
    | some _ =>
      some { raw_text := subStr text m.mstart m.mstop
             citation_type := "internal"
             span_start := m.mstart
             span_end := m.mstop
             article := art.1
             article_label := art.2
             paragraph := paragraph
             target_node_id := to_node_id art.2 paragraph none none none none }

/-- `_build_internal_article_simple` (citations.py:724-741). -/
def build_internal_article_simple (m : RawMatch) (text : List Char) : List Citation :=
  let art := parse_article (capGet m.caps "article")
  let paragraph := parse_int (capGet m.caps "paragraph")
  let point := normalize_point (capGet m.caps "point_inline")
  [{ raw_text := subStr text m.mstart m.mstop
     citation_type := "internal"
     span_start := m.mstart
     span_end := m.mstop
     article := art.1
     article_label := art.2
     paragraph := paragraph
     point := point
     target_node_id := to_node_id art.2 paragraph point none none none }]

/-- `_build_internal_point_enumeration` (citations.py:743-764). -/
def build_internal_point_enumeration (m : RawMatch) (text : List Char) : List Citation :=
  let enum_body := (capGet m.caps "enum_body").getD ""
  (findallParenTok enum_body).filterMap fun point_token =>
    match normalize_point (some point_token) with
    | none => none
    | some point =>
      some { raw_text := subStr text m.mstart m.mstop
             citation_type := "internal"
             span_start := m.mstart
             span_end := m.mstop
             point := some point
             target_node_id := to_node_id none none (some point) none none none }

/-- `_build_internal_paragraph_enumeration` (citations.py:766-786). -/
def build_internal_paragraph_enumeration (m : RawMatch) (text : List Char) : List Citation :=
  let enum_body := (capGet m.caps "enum_body").getD ""
  ((findallDigits enum_body).map (fun t => parse_int (some t))).filterMap fun paragraph =>
    match paragraph with
    | none => none
    | some _ =>
      some { raw_text := subStr text m.mstart m.mstop
             citation_type := "internal"
             span_start := m.mstart
             span_end := m.mstop
             paragraph := paragraph
             target_node_id := to_node_id none paragraph none none none none }

/-- `_build_internal_paragraph_of_this_article` (citations.py:788-799). -/
def build_internal_paragraph_of_this_article (m : RawMatch) (text : List Char) :
    List Citation :=
  let paragraph := parse_int (capGet m.caps "paragraph")
  [{ raw_text := subStr text m.mstart m.mstop
     citation_type := "internal"
     span_start := m.mstart
     span_end := m.mstop
     paragraph := paragraph
     target_node_id := to_node_id none paragraph none none none none }]

/-- `_build_internal_paragraph_range` (citations.py:801-818). -/
def build_internal_paragraph_range (m : RawMatch) (text : List Char) : List Citation :=
  let para_start := parse_int (capGet m.caps "para_start")
  let para_end := parse_int (capGet m.caps "para_end")
  let paragraph_range :=
    match para_start, para_end with
    | some a, some b => some (a, b)
    | _, _ => none
  [{ raw_text := subStr text m.mstart m.mstop
     citation_type := "internal"
     span_start := m.mstart
     span_end := m.mstop
     paragraph_range := paragraph_range
     target_node_id := none }]

/-- `_build_internal_paragraph_simple` (citations.py:820-831). -/
def build_internal_paragraph_simple (m : RawMatch) (text : List Char) : List Citation :=
  let paragraph := parse_int (capGet m.caps "paragraph")
  [{ raw_text := subStr text m.mstart m.mstop
     citation_type := "internal"
     span_start := m.mstart
     span_end := m.mstop
     paragraph := paragraph
     target_node_id := to_node_id none paragraph none none none none }]

/-- `_build_internal_point_of_subparagraph` (citations.py:833-853). -/
def build_internal_point_of_subparagraph (m : RawMatch) (text : List Char) : List Citation :=
  let point := normalize_point (capGet m.caps "point")
  let paragraph := parse_int (capGet m.caps "paragraph")
  let ordinal := normalize_ordinal (capGet m.caps "ordinal")
  [{ raw_text := subStr text m.mstart m.mstop
     citation_type := "internal"
     span_start := m.mstart
     span_end := m.mstop
     paragraph := paragraph
     point := point
     subparagraph_ordinal := ordinal
     target_node_id := to_node_id none paragraph point ordinal none none }]

/-- `_build_internal_subparagraph_comma_point` (citations.py:855-873). -/
def build_internal_subparagraph_comma_point (m : RawMatch) (text : List Char) :
    List Citation :=
  let point := normalize_point (capGet m.caps "point")
  let ordinal := normalize_ordinal (capGet m.caps "ordinal")
  [{ raw_text := subStr text m.mstart m.mstop
     citation_type := "internal"
     span_start := m.mstart
     span_end := m.mstop
     point := point
     subparagraph_ordinal := ordinal
     target_node_id := to_node_id none none point ordinal none none }]

/-- `_build_internal_subparagraph_of_paragraph` (citations.py:875-893). -/
def build_internal_subparagraph_of_paragraph (m : RawMatch) (text : List Char) :
    List Citation :=
  let paragraph := parse_int (capGet m.caps "paragraph")
  let ordinal := normalize_ordinal (capGet m.caps "ordinal")
  [{ raw_text := subStr text m.mstart m.mstop
     citation_type := "internal"
     span_start := m.mstart
     span_end := m.mstop
     paragraph := paragraph
     subparagraph_ordinal := ordinal
     target_node_id := to_node_id none paragraph none ordinal none none }]

/-- `_build_internal_subparagraph_pair` (citations.py:895-921). -/
def build_internal_subparagraph_pair (m : RawMatch) (text : List Char) : List Citation :=
  let first_ord := normalize_ordinal (capGet m.caps "first_ord")
  let second_ord := normalize_ordinal (capGet m.caps "second_ord")
  (if optTruthy first_ord then
    [{ raw_text := subStr text m.mstart m.mstop
       citation_type := "internal"
       span_start := m.mstart
       span_end := m.mstop
       subparagraph_ordinal := first_ord : Citation }]
   else []) ++
  (if optTruthy second_ord then
    [{ raw_text := subStr text m.mstart m.mstop
       citation_type := "internal"
       span_start := m.mstart
       span_end := m.mstop
       subparagraph_ordinal := second_ord : Citation }]
   else [])

/-- `_build_internal_subparagraph` (citations.py:923-945). -/
def build_internal_subparagraph (m : RawMatch) (text : List Char) : List Citation :=
  let art := parse_article (capGet m.caps "article")
  let paragraph := parse_int (capGet m.caps "paragraph")
  let ordinal := normalize_ordinal (capGet m.caps "ordinal")
  [{ raw_text := subStr text m.mstart m.mstop
     citation_type := "internal"
     span_start := m.mstart
     span_end := m.mstop
     article := art.1
     article_label := art.2
     paragraph := paragraph
     subparagraph_ordinal := ordinal
     target_node_id := to_node_id art.2 paragraph none ordinal none none }]

/-- `_build_internal_chapter_section_title` (citations.py:947-970). -/
def build_internal_chapter_section_title (m : RawMatch) (text : List Char) : List Citation :=
  let kind := pyLower (String.mk (pyStrip ((capGet m.caps "kind").getD "").data))
  let roman :=
    match capGet m.caps "roman" with
    | some r => if !r.isEmpty then pyUpper r else "THIS"
    | none => "THIS"
  [{ raw_text := subStr text m.mstart m.mstop
     citation_type := "internal"
     span_start := m.mstart
     span_end := m.mstop
     chapter := if kind == "chapter" then some roman else none
     «section» := if kind == "section" then some roman else none
     title_ref := if kind == "title" then some roman else none
     target_node_id := none }]

/-- `_build_internal_annex` (citations.py:972-1052). -/
def build_internal_annex (m : RawMatch) (text : List Char) : List Citation :=
  let annex := (capGet m.caps "annex").map pyUpper
  let part := (capGet m.caps "part").map pyUpper
  let section_letter := (capGet m.caps "section_letter").map pyUpper
  let first_annex := capGet m.caps "annex_first"
  let second_annex := capGet m.caps "annex_second"
  match first_annex, second_annex with
  | some fa, some sa =>
    if optTruthy (some fa) && optTruthy (some sa) then
      [{ raw_text := subStr text m.mstart m.mstop
         citation_type := "internal"
         span_start := m.mstart
         span_end := m.mstop
         annex := some (pyUpper fa)
         target_node_id := to_node_id none none none none (some (pyUpper fa)) none },
       { raw_text := subStr text m.mstart m.mstop
         citation_type := "internal"
         span_start := m.mstart
         span_end := m.mstop
         annex := some (pyUpper sa)
         target_node_id := to_node_id none none none none (some (pyUpper sa)) none }]
    else buildInternalAnnexSingle m text annex part section_letter
  | _, _ => buildInternalAnnexSingle m text annex part section_letter
where
  /-- The single-annex tail of `_build_internal_annex` (citations.py:1022-1052). -/
  buildInternalAnnexSingle (m : RawMatch) (text : List Char) (annex part section_letter :
      Option String) : List Citation :=
    let target_node_id :=
      if optTruthy section_letter && !(optTruthy part) then none
      else if optTruthy part then to_node_id none none none none annex part
      else to_node_id none none none none annex none
    [{ raw_text := subStr text m.mstart m.mstop
       citation_type := "internal"
       span_start := m.mstart
       span_end := m.mstop
       annex := annex
       annex_part := part
       «section» := section_letter
       target_node_id := target_node_id }]

/-- `_build_relative_reference` (citations.py:1054-1062). -/
def build_relative_reference (m : RawMatch) (text : List Char) : List Citation :=
  [{ raw_text := subStr text m.mstart m.mstop
     citation_type := "internal"
     span_start := m.mstart
     span_end := m.mstop
     target_node_id := none }]

/-! ## The cascade (`citations.py:363-440`) -/

/-- Python's match sort key `(-(end - start), start)` (citations.py:422):
longer matches first, then leftmost. -/
def matchRel (a b : RawMatch) : Prop :=
  (b.mstop - b.mstart < a.mstop - a.mstart) ∨
  (a.mstop - a.mstart = b.mstop - b.mstart ∧ a.mstart ≤ b.mstart)

instance : DecidableRel matchRel := fun a b => by unfold matchRel; infer_instance

/-- `_is_overlapping` (citations.py:1087-1089). -/
def is_overlapping (span_start span_end : Nat) (consumed_spans : List (Nat × Nat)) : Bool :=
  consumed_spans.any (fun pr => span_start < pr.2 && span_end > pr.1)

/-- One iteration of the match loop of `_collect_matches`
(citations.py:424-438): skip a candidate whose span overlaps a consumed
span, skip a candidate whose builder yields nothing, otherwise append the
built citations and consume the span. -/
def collectStep (text : List Char) (builder : RawMatch → List Char → List Citation)
    (acc : List Citation × List (Nat × Nat)) (m : RawMatch) :
    List Citation × List (Nat × Nat) :=
  if is_overlapping m.mstart m.mstop acc.2 then acc
  else if (builder m text).isEmpty then acc
  else (acc.1 ++ builder m text, acc.2 ++ [(m.mstart, m.mstop)])

/-- `_collect_matches` (citations.py:414-440): consider matches longest-first
then leftmost; accept a match only if its span does not overlap any
already-consumed span; a builder returning no citations consumes nothing. -/
def collect_matches (text : List Char) (pattern : RE) (consumed_spans : List (Nat × Nat))
    (builder : RawMatch → List Char → List Citation) :
    List Citation × List (Nat × Nat) :=
  (List.insertionSort matchRel (reFindIter pattern text)).foldl
    (collectStep text builder) ([], consumed_spans)

/-- The ordered `builders` list of `_extract_citations_from_text`
(citations.py:367-405). -/
def buildersList : List (RE × (RawMatch → List Char → List Citation)) := [
  (EXTERNAL_WITH_ARTICLE_POINT_FIRST, build_external_with_article),
  (EXTERNAL_WITH_ARTICLE_ARTICLE_FIRST, build_external_with_article),
  (EXTERNAL_STANDALONE, build_external_standalone),
  (TREATY_TFEU_TEU_SHORT, build_treaty_short),
  (TREATY_LONG_TFEU, build_treaty_tfeu_long),
  (TREATY_LONG_TEU, build_treaty_teu_long),
  (TREATY_CHARTER, build_treaty_charter),
  (TREATY_LONG_GENERIC, build_treaty_generic),
  (TREATY_PROTOCOL, build_treaty_protocol),
  (INTERNAL_POINT_OF_SUBPARAGRAPH, build_internal_point_of_subparagraph),
  (INTERNAL_SUBPARAGRAPH_COMMA_POINT, build_internal_subparagraph_comma_point),
  (INTERNAL_SUBPARAGRAPH_OF_PARAGRAPH, build_internal_subparagraph_of_paragraph),
  (INTERNAL_ARTICLE_POINT_RANGE_ARTICLE_FIRST, build_internal_article_point_range),
  (INTERNAL_ARTICLE_POINT_RANGE_POINT_FIRST, build_internal_article_point_range),
  (INTERNAL_ARTICLE_POINT, build_internal_article_point),
  (INTERNAL_POINT_OF_ARTICLE, build_internal_article_point),
  (INTERNAL_ARTICLE_RANGE, build_internal_article_range),
  (INTERNAL_ARTICLE_ENUMERATION, build_internal_article_enumeration),
  (INTERNAL_ARTICLE_OR, build_internal_article_or),
  (INTERNAL_ARTICLE_MULTI_PARAGRAPH, build_internal_article_multi_paragraph),
  (INTERNAL_ARTICLE_SIMPLE, build_internal_article_simple),
  (INTERNAL_POINT_ENUMERATION, build_internal_point_enumeration),
  (INTERNAL_PARAGRAPH_ENUMERATION, build_internal_paragraph_enumeration),
  (INTERNAL_PARAGRAPH_OF_THIS_ARTICLE, build_internal_paragraph_of_this_article),
  (INTERNAL_PARAGRAPH_RANGE, build_internal_paragraph_range),
  (INTERNAL_PARAGRAPH_SIMPLE, build_internal_paragraph_simple),
  (INTERNAL_SUBPARAGRAPH_PAIR_THIS_PARAGRAPH, build_internal_subparagraph_pair),
  (INTERNAL_SUBPARAGRAPH_ARTICLE_FIRST, build_internal_subparagraph),
  (INTERNAL_SUBPARAGRAPH_OF_ARTICLE, build_internal_subparagraph),
  (INTERNAL_SUBPARAGRAPH_SIMPLE, build_internal_subparagraph),
  (INTERNAL_CHAPTER_SECTION_TITLE, build_internal_chapter_section_title),
  (INTERNAL_THIS_CHAPTER_SECTION_TITLE, build_internal_chapter_section_title),
  (INTERNAL_ANNEX_SECTION_OF_ANNEX, build_internal_annex),
  (INTERNAL_ANNEX_WITH_PART, build_internal_annex),
  (INTERNAL_ANNEX_MULTIPLE, build_internal_annex),
  (INTERNAL_ANNEX_SIMPLE, build_internal_annex),
  (RELATIVE_REFERENCE, build_relative_reference)]

/-- One pattern of the cascade (citations.py:407-408): run
`_collect_matches` with the shared consumed-spans list and extend the
citation list. -/
def cascadeStep (text : List Char) (acc : List Citation × List (Nat × Nat))
    (pb : RE × (RawMatch → List Char → List Citation)) :
    List Citation × List (Nat × Nat) :=
  let res := collect_matches text pb.1 acc.2 pb.2
  (acc.1 ++ res.1, res.2)

/-- The pattern loop of `_extract_citations_from_text` (citations.py:407-408):
one shared consumed-spans list threaded through all patterns in order. -/
def extractCore (text : List Char) : List Citation × List (Nat × Nat) :=
  buildersList.foldl (cascadeStep text) ([], [])

/-- `_CONNECTIVE_PHRASES` (citations.py:19-60), in source order. -/
def CONNECTIVE_PHRASES : List String := [
  "acting in accordance with",
  "the procedure laid down in",
  "by way of derogation from",
  "falling within the scope of",
  "without prejudice to",
  "for the purposes of",
  "to the extent that",
  "in accordance with",
  "within the meaning of",
  "as provided for in",
  "as clarified in",
  "as referred to in",
  "in compliance with",
  "irrespective of",
  "as outlined in",
  "contrary to",
  "provided for in",
  "identified under",
  "established under",
  "established in",
  "having regard to",
  "pursuant to",
  "as defined in",
  "set out in",
  "laid down in",
  "as set out in",
  "as laid down in",
  "on the basis of",
  "except where",
  "in so far as",
  "referred to in",
  "specified in",
  "consistent with",
  "by virtue of",
  "by reason of",
  "notwithstanding",
  "approved by",
  "listed in",
  "subject to",
  "under"]

/-- `[a-z0-9]` for `_normalize_phrase_text` (case-sensitive, applied after
lowering). -/
def isPhraseAlnum (c : Char) : Bool := ('a' ≤ c && c ≤ 'z') || c.isDigit

mutual

/-- `re.sub(r"[^a-z0-9]+", " ", ...)`: maximal runs of non-alphanumerics
become one space (mutual skip form, structurally recursive). -/
def replaceNonAlnum : List Char → List Char
  | [] => []
  | c :: rest =>
    if !isPhraseAlnum c then ' ' :: replaceNonAlnumSkip rest
    else c :: replaceNonAlnum rest

def replaceNonAlnumSkip : List Char → List Char
  | [] => []
  | c :: rest =>
    if !isPhraseAlnum c then replaceNonAlnumSkip rest
    else c :: replaceNonAlnum rest

end

/-- `_normalize_phrase_text` (citations.py:1082-1085). -/
def normalize_phrase_text (s : String) : String :=
  String.mk (pyStrip (collapseWs (replaceNonAlnum (s.data.map Char.toLower))))

/-- The per-citation search of `_annotate_connective_phrases`
(citations.py:1066-1078): the longest connective phrase (first in list order
among equals) ending the 200-character window before offset `span_start`. -/
def bestConnective (text : List Char) (span_start : Nat) : Option String :=
  let window_start := span_start - 200
  let pre := (text.drop window_start).take (span_start - window_start)
  let normalized_prefix := normalize_phrase_text (String.mk pre)
  (CONNECTIVE_PHRASES.foldl
    (fun (best : Option String × Int) phrase =>
      let np := normalize_phrase_text phrase
      if np.isEmpty then best
      else if np.data.isSuffixOf normalized_prefix.data && (np.length : Int) > best.2 then
        (some phrase, (np.length : Int))
      else best)
    (none, -1)).1

/-- The per-citation update of `_annotate_connective_phrases`
(citations.py:1080). -/
def annotateOne (text : List Char) (citation : Citation) : Citation :=
  { citation with connective_phrase := bestConnective text citation.span_start }

/-- `_annotate_connective_phrases` (citations.py:1064-1080). -/
def annotate_connective_phrases (text : List Char) (citations : List Citation) :
    List Citation :=
  citations.map (annotateOne text)

/-- Python's stable `list.sort(key=lambda c: c.span_start)` (citations.py:410). -/
def citSpanRel (a b : Citation) : Prop := a.span_start ≤ b.span_start

instance : DecidableRel citSpanRel := fun a b => by unfold citSpanRel; infer_instance

/-- `_extract_citations_from_text` (citations.py:363-412). -/
def extract_citations_from_text (text : String) : List Citation :=
  let core := extractCore text.data
  annotate_connective_phrases text.data (List.insertionSort citSpanRel core.1)

/-! ## Unit data model (`models.py`, class `Unit`) -/

/-- `models.Unit` (models.py:119-235): one parsed structural unit.  Field
names and defaults follow the dataclass (`MUnit` because `Unit` is taken by
Lean's unit type). -/
structure MUnit where
  id : String
  type : String
  ref : Option String
  text : String
  parent_id : Option String
  source_id : String
  source_file : String
  article_number : Option String := none
  paragraph_number : Option String := none
  paragraph_index : Option Nat := none
  subparagraph_index : Option Nat := none
  point_label : Option String := none
  subpoint_label : Option String := none
  subsubpoint_label : Option String := none
  extra_labels : List String := []
  heading : Option String := none
  annex_number : Option String := none
  annex_part : Option String := none
  recital_number : Option String := none
  is_amendment_text : Bool := false
  source_xpath : Option String := none
  target_path : Option String := none
  article_heading : Option String := none
  children_count : Nat := 0
  is_leaf : Bool := true
  is_stem : Bool := false
  word_count : Nat := 0
  char_count : Nat := 0
  citations : List Citation := []
deriving DecidableEq, Repr

/-! ## Builder state and `_add_unit` (`state.py`) -/

/-- The parser state relevant to unit creation (state.py:13-19):
`self._unit_ids` (a set, modelled by membership in a duplicate-free list) and
`self.units`. -/
structure ParserState where
  unit_ids : List String
  units : List MUnit
deriving Repr

/-- The `while unit.id in self._unit_ids` loop of `_add_unit`
(state.py:62-66): starting from suffix 1, return the first suffix `k` with
`base_id + "_" + str(k)` free.  `fuel = |ids| + 1` suffices (pigeonhole). -/
def findFreeSuffixAux (ids : List String) (base : String) : Nat → Nat → Nat
  | 0, k => k
  | fuel + 1, k =>
    if ids.contains (base ++ "_" ++ natToStr k) then findFreeSuffixAux ids base fuel (k + 1)
    else k

/-- `_add_unit` (state.py:60-68): rename on id collision by appending the
first free numeric suffix, record the id, append the unit at the end. -/
def add_unit (st : ParserState) (u : MUnit) : ParserState :=
  let final_id :=
    if st.unit_ids.contains u.id then
      u.id ++ "_" ++ natToStr (findFreeSuffixAux st.unit_ids u.id (st.unit_ids.length + 1) 1)
    else u.id
  { unit_ids :=
      if st.unit_ids.contains final_id then st.unit_ids else st.unit_ids ++ [final_id]
    units := st.units ++ [{ u with id := final_id }] }

/-! ## Enrichment pass (`enrichment.py`) -/

/-- Truthiness of `unit.parent_id` (`if unit.parent_id:` in
`_build_parent_index`, enrichment.py:28). -/
def parentTruthy (u : MUnit) : Option String :=
  match u.parent_id with
  | some p => if p.isEmpty then none else some p
  | none => none

/-- Children of a unit per `_build_parent_index` (enrichment.py:24-29). -/
def childrenOf (units : List MUnit) (uid : String) : List MUnit :=
  units.filter (fun v => parentTruthy v == some uid)

/-- `_compute_children_counts` (enrichment.py:31-35). -/
def compute_children_counts (units : List MUnit) : List MUnit :=
  units.map (fun u =>
    let n := (childrenOf units u.id).length
    { u with children_count := n, is_leaf := n == 0 })

/-- `text.rstrip().endswith(":")` (enrichment.py:40). -/
def rstripEndsColon (s : String) : Bool :=
  (pyStripRight s.data).getLast? == some ':'

/-- `_compute_is_stem` (enrichment.py:37-40). -/
def compute_is_stem (units : List MUnit) : List MUnit :=
  units.map (fun u => { u with is_stem := u.children_count > 0 && rstripEndsColon u.text })

/-- The reset types of `_propagate_article_headings` (enrichment.py:44). -/
def headingResetTypes : List String :=
  ["document_title", "recital", "annex", "annex_part", "annex_item"]

/-- `_propagate_article_headings` (enrichment.py:42-51). -/
def propagate_article_headings : Option String → List MUnit → List MUnit
  | _, [] => []
  | current, u :: rest =>
    let cur1 := if headingResetTypes.contains u.type then none else current
    let cur2 := if u.type == "article" then u.heading else cur1
    { u with article_heading := cur2 } :: propagate_article_headings cur2 rest

/-- Truthiness of an optional string field used by `_build_target_path`. -/
def fieldTruthy : Option String → Bool
  | some s => !s.isEmpty
  | none => false

/-- `_build_target_path` (enrichment.py:57-84). -/
def build_target_path (u : MUnit) : Option String :=
  if fieldTruthy u.recital_number then some ("Recital " ++ u.recital_number.getD "")
  else if fieldTruthy u.annex_number then
    some (("Annex " ++ u.annex_number.getD "") ++
      (if fieldTruthy u.annex_part then ", Part " ++ u.annex_part.getD "" else ""))
  else if !(fieldTruthy u.article_number) then none
  else
    some (("Art. " ++ u.article_number.getD "") ++
      (if fieldTruthy u.paragraph_number then "(" ++ u.paragraph_number.getD "" ++ ")"
       else match u.paragraph_index with
            | some i => "(" ++ natToStr i ++ ")"
            | none => "") ++
      (if fieldTruthy u.point_label then "(" ++ u.point_label.getD "" ++ ")" else "") ++
      (if fieldTruthy u.subpoint_label then "(" ++ u.subpoint_label.getD "" ++ ")" else "") ++
      (if fieldTruthy u.subsubpoint_label then "(" ++ u.subsubpoint_label.getD "" ++ ")" else ""))

/-- `_compute_target_paths` (enrichment.py:53-55). -/
def compute_target_paths (units : List MUnit) : List MUnit :=
  units.map (fun u => { u with target_path := build_target_path u })

/-- `len(text.split())`: number of maximal non-whitespace runs. -/
def countWordsAux : List Char → Bool → Nat
  | [], _ => 0
  | c :: rest, inWord =>
    if isPySpace c then countWordsAux rest false
    else (if inWord then 0 else 1) + countWordsAux rest true

def pyWordCount (s : String) : Nat := countWordsAux s.data false

/-- `_compute_text_stats` (enrichment.py:86-90). -/
def compute_text_stats (units : List MUnit) : List MUnit :=
  units.map (fun u =>
    { u with word_count := if u.text.isEmpty then 0 else pyWordCount u.text
             char_count := if u.text.isEmpty then 0 else u.text.length })

/-- `models.DocumentMetadata` (models.py:277-295). -/
structure MDocumentMetadata where
  title : Option String := none
  total_units : Nat := 0
  total_articles : Nat := 0
  total_paragraphs : Nat := 0
  total_points : Nat := 0
  total_definitions : Nat := 0
  has_annexes : Bool := false
  amendment_articles : List String := []
deriving DecidableEq, Repr

/-- `\bdefinitions?\b` with `re.IGNORECASE` (enrichment.py:109). -/
def DEFINITIONS_RE : RE := rseq [.wordB, strCI "definition", .opt (chCI 's'), .wordB]

/-- `_compute_document_metadata` (enrichment.py:92-125); it reads the units
and fills `self.document_metadata`, mutating no unit. -/
def compute_document_metadata (units : List MUnit) : MDocumentMetadata :=
  let title_unit := units.find? (fun u => u.type == "document_title")
  let amendment_articles :=
    (units.foldl
      (fun (acc : List String) u =>
        match u.article_number with
        | some an =>
          if u.type == "article" && u.is_amendment_text && !an.isEmpty &&
              !(acc.contains an) then
            acc ++ [an]
          else acc
        | none => acc)
      [])
  let definition_article_numbers :=
    units.filterMap (fun u =>
      match u.article_number, u.heading with
      | some an, some h =>
        if u.type == "article" && !an.isEmpty && !h.isEmpty &&
            (reScanFrom DEFINITIONS_RE h.data 0).isSome then some an
        else none
      | _, _ => none)
  { title := title_unit.map (fun u => u.text)
    total_units := units.length
    total_articles := (units.filter (fun u => u.type == "article")).length
    total_paragraphs := (units.filter (fun u => u.type == "paragraph")).length
    total_points := (units.filter (fun u => u.type == "point")).length
    total_definitions :=
      (units.filter (fun u =>
        u.type == "point" &&
        match u.article_number with
        | some an => definition_article_numbers.contains an
        | none => false)).length
    has_annexes := units.any (fun u => u.type == "annex")
    amendment_articles := amendment_articles }

/-- `_enrich` (enrichment.py:14-22): the sequence of unit-rewriting passes,
in source order (the parent-index build is folded into `childrenOf`;
document-metadata computation mutates no unit and is modelled separately by
`compute_document_metadata`). -/
def enrich_units (units : List MUnit) : List MUnit :=
  compute_text_stats
    (compute_target_paths
      (propagate_article_headings none
        (compute_is_stem
          (compute_children_counts units))))

/-! ## The parse pipeline after the builder stages (`engine.py:32-50`)

`EUParser.parse` runs the format detector and the builder walkers, then
`_count_parsed_elements`, `_validate` and `_enrich`, and returns
`self.units`.  Neither `_extract_citations` (citations.py:356) nor
`_resolve_citations` (citation_resolver.py:31) is invoked anywhere in
`parse` or in the methods it calls, so the pipeline after tree building is
`enrich_units` alone as far as the unit list is concerned. -/

/-- The validation report data touched by `_validate` (validation.py:7-25);
it appends to the report and never rewrites `self.units`. -/
def validate_orphans (units : List MUnit) : List (String × String) :=
  units.filterMap (fun u =>
    match u.parent_id with
    | some p =>
      if !p.isEmpty && !(units.any (fun v => v.id == p)) then some (u.id, p) else none
    | none => none)

/-- The tail of `EUParser.parse` (engine.py:46-50) acting on the built unit
list: count parsed elements (report only), validate (report only), enrich,
return the units. -/
def parse_pipeline_post_build (built : List MUnit) : List MUnit :=
  enrich_units built

/-! ## Citation resolver: bare contextual act references
(`citation_resolver.py`) -/

/-- `_BARE_CONTEXTUAL_ACT_TYPES` (citation_resolver.py:24-28). -/
def BARE_CONTEXTUAL_ACT_TYPES : List (String × String) :=
  [("that directive", "directive"), ("that regulation", "regulation"),
   ("that decision", "decision")]

/-- The `unique_acts` dict accumulation of
`_find_unique_preceding_eu_legislation_act` (citation_resolver.py:232-242):
walk the prior citations latest-first, keep the first citation seen for each
`(act_type, act_number)` key, in insertion order. -/
def unique_preceding_acts (citations : List Citation) (citation_index : Nat)
    (citation : Citation) (act_type : String) : List ((String × String) × Citation) :=
  ((citations.take citation_index).reverse).foldl
    (fun acc prior =>
      if prior.span_end > citation.span_start then acc
      else if prior.citation_type != "eu_legislation" then acc
      else if !(prior.act_type == some act_type) then acc
      else if !(optTruthy prior.act_number) then acc
      else
        let key := (act_type, prior.act_number.getD "")
        if acc.any (fun pr => pr.1 == key) then acc else acc ++ [(key, prior)])
    []

/-- `_find_unique_preceding_eu_legislation_act` (citation_resolver.py:225-246). -/
def find_unique_preceding_eu_legislation_act (citations : List Citation)
    (citation_index : Nat) (citation : Citation) (act_type : String) : Option Citation :=
  match unique_preceding_acts citations citation_index citation act_type with
  | [single] => some single.2
  | _ => none

/-- `_reclassify_bare_relative_act_reference` (citation_resolver.py:198-223).
`citations` is the owning unit's citation list, `raw_text` the citation's
`raw_text.strip().lower()` as computed by the caller
(citation_resolver.py:41). -/
def reclassify_bare_relative_act_reference (citations : List Citation)
    (citation_index : Nat) (citation : Citation) (raw_text : String) : Citation :=
  match (BARE_CONTEXTUAL_ACT_TYPES.find? (fun pr => pr.1 == raw_text)).map
      (fun pr => pr.2) with
  | none => citation
  | some target_act_type =>
    match find_unique_preceding_eu_legislation_act citations citation_index citation
        target_act_type with
    | none => citation
    | some antecedent =>
      { citation with
          citation_type := "eu_legislation"
          act_type := antecedent.act_type
          act_number := antecedent.act_number
          act_year := antecedent.act_year
          celex := antecedent.celex
          target_node_id := none }

/-- The raw text a citation presents to the resolver
(citation_resolver.py:41). -/
def rawLower (c : Citation) : String := pyLower (String.mk (pyStrip c.raw_text.data))

/-- The tests a prior citation must pass before the resolver's antecedent
loop counts it (citation_resolver.py:234-239): it ends at or before the bare
reference starts, is external EU legislation, has the target act type and a
truthy act number. -/
def c6Qualifies (citation : Citation) (act_type : String) (prior : Citation) : Bool :=
  !(decide (prior.span_end > citation.span_start)) &&
  (prior.citation_type == "eu_legislation") &&
  (prior.act_type == some act_type) &&
  optTruthy prior.act_number

/-- The prior citations the loop of
`_find_unique_preceding_eu_legislation_act` does not `continue` past,
latest first (citation_resolver.py:233-239). -/
def qualifyingPriors (citations : List Citation) (citation_index : Nat)
    (citation : Citation) (act_type : String) : List Citation :=
  ((citations.take citation_index).reverse).filter (c6Qualifies citation act_type)

/-- One iteration of the antecedent loop (citation_resolver.py:233-242) as a
fold step; `unique_preceding_acts` is definitionally a fold of this. -/
def c6SrcStep (citation : Citation) (act_type : String)
    (acc : List ((String × String) × Citation)) (prior : Citation) :
    List ((String × String) × Citation) :=
  if prior.span_end > citation.span_start then acc
  else if prior.citation_type != "eu_legislation" then acc
  else if !(prior.act_type == some act_type) then acc
  else if !(optTruthy prior.act_number) then acc
  else
    let key := (act_type, prior.act_number.getD "")
    if acc.any (fun pr => pr.1 == key) then acc else acc ++ [(key, prior)]

/-- The dict-insertion part of the loop iteration alone
(citation_resolver.py:240-242), applied only to qualifying priors. -/
def c6DedupStep (act_type : String) (acc : List ((String × String) × Citation))
    (prior : Citation) : List ((String × String) × Citation) :=
  let key := (act_type, prior.act_number.getD "")
  if acc.any (fun pr => pr.1 == key) then acc else acc ++ [(key, prior)]

/-- A unit text's first mention of Directive 2009/138/EC, as an
`eu_legislation` citation. -/
def c6d1 : Citation :=
  { raw_text := "Directive 2009/138/EC", citation_type := "eu_legislation",
    span_start := 0, span_end := 21, act_type := some "directive",
    act_number := some "2009/138", act_year := some 2009,
    celex := some "32009L0138" }

/-- A second, later mention of the same Directive 2009/138/EC in the same
unit text. -/
def c6d2 : Citation :=
  { raw_text := "Directive 2009/138/EC", citation_type := "eu_legislation",
    span_start := 30, span_end := 51, act_type := some "directive",
    act_number := some "2009/138", act_year := some 2009,
    celex := some "32009L0138" }

/-- A bare contextual reference "that Directive" following both mentions,
extracted as `internal`. -/
def c6rel : Citation :=
  { raw_text := "that Directive", citation_type := "internal",
    span_start := 60, span_end := 74 }

/-! ## The OJ direct-content article walker (`oj.py:324-454`)

Spec §1 and §6 place HTML/DOM parsing itself out of scope (an off-the-shelf
tree parser is assumed), so document nodes are modelled as an abstract tree
carrying tag kind, class list, id attribute and extracted text; the walker
below mirrors `_parse_article_direct_content` over that tree.  Python call
semantics matter here: a call that passes a keyword argument not accepted by
the callee raises `TypeError` before the callee's body runs. -/

/-- A parsed document node for the walker: bare text, `<p>` (classes, id,
extracted text), `<table>`, `<div>` (id, classes, children), or `<figure>`. -/
inductive HNode where
  | textNode (s : String)
  | p (classes : List String) (idAttr : String) (text : String)
  | table (tag : Nat)
  | div (idAttr : String) (classes : List String) (children : List HNode)
  | figure

mutual

/-- Structural equality of document nodes (Python object identity is finer,
but the source only compares `child == title_div` where structural equality
coincides on the inputs considered here). -/
def hnodeBEq : HNode → HNode → Bool
  | HNode.textNode a, HNode.textNode b => a == b
  | HNode.p c1 i1 t1, HNode.p c2 i2 t2 => c1 == c2 && i1 == i2 && t1 == t2
  | HNode.table a, HNode.table b => a == b
  | HNode.div i1 c1 ch1, HNode.div i2 c2 ch2 => i1 == i2 && c1 == c2 && hnodeListBEq ch1 ch2
  | HNode.figure, HNode.figure => true
  | _, _ => false

def hnodeListBEq : List HNode → List HNode → Bool
  | [], [] => true
  | a :: as_, b :: bs => hnodeBEq a b && hnodeListBEq as_ bs
  | _, _ => false

end

instance : BEq HNode := ⟨hnodeBEq⟩

/-- The parameters accepted by `_parse_point_tables` after `self`
(tables.py:89-98): `tables`, `parent_id`, `article_num`, `paragraph_num`,
`depth`, `max_depth`, `is_amendment`. -/
def parsePointTablesParams : List String :=
  ["tables", "parent_id", "article_num", "paragraph_num", "depth", "max_depth",
   "is_amendment"]

/-- Python keyword-call check: every keyword argument must name a parameter
of the callee, otherwise the call raises `TypeError`. -/
def pyKwCallOk (params kwargs : List String) : Bool :=
  kwargs.all params.contains

/-- The keyword arguments the calls in `_parse_article_direct_content` pass
beyond the positional ones (oj.py:354, oj.py:410, oj.py:454): `is_direct=True`. -/
def directCallKwargs : List String := ["is_direct"]

/-- Runtime errors the modelled walker can raise. -/
inductive PyError where
  | typeError
deriving DecidableEq, Repr

/-- Walker state of `_parse_article_direct_content` (oj.py:327-330) plus the
shared parser state receiving created units. -/
structure DirectContentState where
  st : ParserState
  par_id : Option String
  current_parent : Option String
  subpar_idx : Nat
  pending_tables : List HNode

/-- The pending-tables flush call
`self._parse_point_tables(pending_tables, current_parent, article_num, None,
is_direct=True)` (oj.py:349-356): evaluating the call first checks the
keyword arguments against the callee's parameters.  The success branch
(which would parse the tables into point units) is unreachable because
`"is_direct"` is not a parameter of `_parse_point_tables`; it is modelled as
clearing the pending list. -/
def flushPointTablesDirect (s : DirectContentState) : Except PyError DirectContentState :=
  if pyKwCallOk parsePointTablesParams directCallKwargs then
    Except.ok { s with pending_tables := [] }
  else Except.error PyError.typeError

/-- Creation of the paragraph/subparagraph unit for one qualifying `<p>`
(oj.py:362-394 and the identical inner-div block oj.py:418-451). -/
def handleDirectP (article_id article_num source_file : String) (pid ptext : String)
    (s : DirectContentState) : DirectContentState :=
  match s.par_id with
  | none =>
    let par_id := article_id ++ ".par-1"
    let st2 := add_unit s.st
      { id := par_id, type := "paragraph", ref := none, text := normalize_text ptext,
        parent_id := some article_id, source_id := pid, source_file := source_file,
        article_number := some article_num, paragraph_number := none,
        paragraph_index := some 1 }
    { s with st := st2, par_id := some par_id, current_parent := some par_id }
  | some par_id =>
    let subpar_idx := s.subpar_idx + 1
    let subpar_id := par_id ++ ".subpar-" ++ natToStr subpar_idx
    let st2 := add_unit s.st
      { id := subpar_id, type := "subparagraph", ref := none, text := normalize_text ptext,
        parent_id := some par_id, source_id := pid, source_file := source_file,
        article_number := some article_num, paragraph_number := none }
    { s with st := st2, subpar_idx := subpar_idx, current_parent := some subpar_id }

/-- Flush-then-handle for one qualifying `<p>` (oj.py:348-360 /
oj.py:404-416). -/
def stepDirectP (article_id article_num source_file : String) (pid ptext : String)
    (s : DirectContentState) : Except PyError DirectContentState :=
  if !s.pending_tables.isEmpty && s.current_parent.isSome then
    match flushPointTablesDirect s with
    | Except.error e => Except.error e
    | Except.ok s2 => Except.ok (handleDirectP article_id article_num source_file pid ptext s2)
  else Except.ok (handleDirectP article_id article_num source_file pid ptext s)

/-- The inner loop over `child.find_all("p", class_="oj-normal",
recursive=False)` of a plain `<div>` (oj.py:403-451). -/
def stepDirectDivPs (article_id article_num source_file : String) :
    List HNode → DirectContentState → Except PyError DirectContentState
  | [], s => Except.ok s
  | n :: rest, s =>
    match n with
    | HNode.p classes pid ptext =>
      if classes.contains "oj-normal" then
        match stepDirectP article_id article_num source_file pid ptext s with
        | Except.error e => Except.error e
        | Except.ok s2 => stepDirectDivPs article_id article_num source_file rest s2
      else stepDirectDivPs article_id article_num source_file rest s
    | _ => stepDirectDivPs article_id article_num source_file rest s

mutual

/-- `article_div.find("div", class_="eli-title")` (oj.py:325) on one node:
the node itself if it is an `eli-title` `<div>`, else the first match among
its descendants. -/
def findEliTitleDivNode : HNode → Option HNode
  | HNode.div i cs ch =>
    if cs.contains "eli-title" then some (HNode.div i cs ch)
    else findEliTitleDiv ch
  | _ => none

/-- `article_div.find("div", class_="eli-title")` (oj.py:325): first
descendant `<div>` with class `eli-title`, in document order. -/
def findEliTitleDiv : List HNode → Option HNode
  | [] => none
  | n :: rest =>
    match findEliTitleDivNode n with
    | some d => some d
    | none => findEliTitleDiv rest

end

/-- The main child loop of `_parse_article_direct_content` (oj.py:332-451). -/
def directContentLoop (article_id article_num source_file : String)
    (title_div : Option HNode) :
    List HNode → DirectContentState → Except PyError DirectContentState
  | [], s => Except.ok s
  | child :: rest, s =>
    let next := fun (r : Except PyError DirectContentState) =>
      match r with
      | Except.error e => Except.error e
      | Except.ok s2 => directContentLoop article_id article_num source_file title_div rest s2
    match child with
    | HNode.textNode _ => next (Except.ok s)
    | HNode.figure => next (Except.ok s)
    | HNode.p classes pid ptext =>
      if some child == title_div then next (Except.ok s)
      else if classes.contains "oj-ti-art" then next (Except.ok s)
      else if classes.contains "oj-sti-art" then next (Except.ok s)
      else if classes.contains "oj-normal" || classes.contains "oj-ti-tbl" ||
          classes.contains "oj-note" then
        next (stepDirectP article_id article_num source_file pid ptext s)
      else next (Except.ok s)
    | HNode.table t =>
      if some child == title_div then next (Except.ok s)
      else next (Except.ok { s with pending_tables := s.pending_tables ++ [HNode.table t] })
    | HNode.div did dcs dch =>
      if some child == title_div then next (Except.ok s)
      else if did.isEmpty && !dcs.contains "eli-subdivision" && !dcs.contains "eli-title" then
        next (stepDirectDivPs article_id article_num source_file dch s)
      else next (Except.ok s)

/-- `_parse_article_direct_content` (oj.py:324-454): walk the article's
direct children, then flush any remaining pending tables (the flush call
passes `is_direct=True`, oj.py:454). -/
def parse_article_direct_content (article_children : List HNode)
    (article_id article_num source_file : String) (st0 : ParserState) :
    Except PyError ParserState :=
  let title_div := findEliTitleDiv article_children
  match directContentLoop article_id article_num source_file title_div article_children
      { st := st0, par_id := none, current_parent := none, subpar_idx := 0,
        pending_tables := [] } with
  | Except.error e => Except.error e
  | Except.ok s =>
    if !s.pending_tables.isEmpty && s.current_parent.isSome then
      match flushPointTablesDirect s with
      | Except.error e => Except.error e
      | Except.ok s2 => Except.ok s2.st
    else Except.ok s.st

/-! ## C2: the OJ direct-content article walker raises `TypeError` -/

/-- An OJ article body with no numbered paragraph divs: a normal paragraph,
then a table, then further paragraph content (the shape named by C2). -/
def c2children : List HNode :=
  [HNode.p ["oj-normal"] "" "This Article applies to operators of essential services.",
   HNode.table 0,
   HNode.p ["oj-normal"] "" "Further conditions apply to those operators."]

/-- The unit the builder would produce for the paragraph text of the
repository's own extraction test (tests/test_citations.py:33-46); builders
never populate `citations`, so the field holds its dataclass default `[]`. -/
def c1unit : MUnit :=
  { id := "u1", type := "paragraph", ref := none,
    text := "as referred to in Article 6(1).", parent_id := none, source_id := "",
    source_file := "inline.html" }

/-- The citation `_extract_citations_from_text` yields for that text. -/
def c1expected : Citation :=
  { raw_text := "Article 6(1)", citation_type := "internal", span_start := 18,
    span_end := 30, article := some 6, article_label := some "6", paragraph := some 1,
    connective_phrase := some "as referred to in", target_node_id := some "art-6.par-1" }

/-! ## C10: extracted citations are sorted by `span_start` -/

instance : IsTotal Citation citSpanRel :=
  ⟨fun a b => by unfold citSpanRel; omega⟩

instance : IsTrans Citation citSpanRel :=
  ⟨fun a b c hab hbc => by unfold citSpanRel at hab hbc ⊢; omega⟩

/-- The citation extracted from C7's scenario text. -/
def c7expected : Citation :=
  { raw_text := "Regulation (EU) 2016/679", citation_type := "eu_legislation",
    span_start := 19, span_end := 43, act_year := some 2016,
    act_type := some "regulation", act_number := some "2016/679",
    celex := some "32016R0679", connective_phrase := some "in accordance with" }

/-! ## Span bookkeeping of the cascade (shared by C3 and C4) -/

/-- Two half-open spans do not overlap. -/
def spanNonOverlap (a b : Nat × Nat) : Prop := ¬(a.1 < b.2 ∧ b.1 < a.2)

/-- A builder emits only citations spanning exactly its match. -/
def builderSpanOk (b : RawMatch → List Char → List Citation) : Prop :=
  ∀ m text c, c ∈ b m text → c.span_start = m.mstart ∧ c.span_end = m.mstop

/-! ## C3: span non-overlap across one unit's citations -/

/-- The two citations the point-enumeration builder emits for C3's text. -/
def c3ex1 : Citation :=
  { raw_text := "points (a) and (b)", citation_type := "internal", span_start := 0,
    span_end := 18, point := some "a", target_node_id := some "pt-a" }

def c3ex2 : Citation :=
  { raw_text := "points (a) and (b)", citation_type := "internal", span_start := 0,
    span_end := 18, point := some "b", target_node_id := some "pt-b" }

/-! ## C4: cascade priority and matching discipline -/

instance : IsTotal RawMatch matchRel :=
  ⟨fun a b => by unfold matchRel; omega⟩

instance : IsTrans RawMatch matchRel :=
  ⟨fun a b c hab hbc => by unfold matchRel at hab hbc ⊢; omega⟩

/-- The single citation C4's priority example yields: the specific
external-with-article pattern claims the whole phrase, leaving nothing for
the bare-article or standalone-act patterns. -/
def c4expected : Citation :=
  { raw_text := "Article 3 of Regulation (EU) 2016/679", citation_type := "eu_legislation",
    span_start := 0, span_end := 37, article := some 3, article_label := some "3",
    target_node_id := some "art-3", act_year := some 2016, act_type := some "regulation",
    act_number := some "2016/679", celex := some "32016R0679" }

/-- The builder-state invariant: the recorded id set is exactly the ids of
the emitted units, without duplicates. -/
def builderInv (st : ParserState) : Prop :=
  st.units.map MUnit.id = st.unit_ids ∧ st.unit_ids.Nodup

/-- C5 instantiated: a builder state already holding `art-1` and `art-1_1`
renames a colliding `art-1` to `art-1_2`. -/
def c5st : ParserState := { unit_ids := ["art-1", "art-1_1"], units := [] }

def c5u : MUnit :=
  { id := "art-1", type := "article", ref := none, text := "", parent_id := none,
    source_id := "", source_file := "doc.html" }

/-- `collapseWsSkip` is `collapseWs` after dropping the leading whitespace
run. -/
theorem collapseWsSkip_eq_dropWhile :
    ∀ l : List Char, collapseWsSkip l = collapseWs (l.dropWhile isPySpace)
  | [] => by simp [collapseWsSkip, collapseWs]
  | c :: rest => by
    rw [collapseWsSkip, List.dropWhile_cons]
    by_cases hc : isPySpace c
    · rw [if_pos hc, if_pos hc]
      exact collapseWsSkip_eq_dropWhile rest
    · rw [if_neg hc, if_neg hc, collapseWs, if_neg hc]

/-- The unfolding of `collapseWs` that mirrors `re.sub` directly: a leading
whitespace character stands for its whole run. -/
theorem collapseWs_cons (c : Char) (rest : List Char) :
    collapseWs (c :: rest) =
      if isPySpace c then ' ' :: collapseWs (rest.dropWhile isPySpace)
      else c :: collapseWs rest := by
  rw [collapseWs]
  by_cases hc : isPySpace c
  · rw [if_pos hc, if_pos hc, collapseWsSkip_eq_dropWhile]
  · rw [if_neg hc, if_neg hc]

/-! ### Facts about `normalize_text` -/

theorem dropWhile_head_false {p : Char → Bool} {l : List Char} {c : Char} {t : List Char}
    (h : l.dropWhile p = c :: t) : p c = false := by
  induction l with
  | nil => simp at h
  | cons x xs ih =>
    rw [List.dropWhile_cons] at h
    by_cases hx : p x
    · simp [hx] at h; exact ih h
    · simp [hx] at h; obtain ⟨h1, _⟩ := h; subst h1; simpa using hx

theorem dropWhile_of_head_false {p : Char → Bool} {c : Char} {t : List Char}
    (h : p c = false) : (c :: t).dropWhile p = c :: t := by
  simp [List.dropWhile_cons, h]

/-- Every whitespace character in the collapsed list is a plain space. -/
theorem collapseWs_ws_eq_space :
    ∀ l : List Char, ∀ c ∈ collapseWs l, isPySpace c = true → c = ' '
  | [], c, hc, _ => by simp [collapseWs] at hc
  | a :: rest, c, hc, hws => by
    rw [collapseWs_cons] at hc
    by_cases ha : isPySpace a
    · rw [if_pos ha] at hc
      rcases List.mem_cons.mp hc with h | h
      · exact h
      · exact collapseWs_ws_eq_space _ c h hws
    · rw [if_neg ha] at hc
      rcases List.mem_cons.mp hc with h | h
      · subst h; simp [hws] at ha
      · exact collapseWs_ws_eq_space _ c h hws
termination_by l => l.length
decreasing_by
  · exact Nat.lt_succ_of_le ((List.dropWhile_sublist isPySpace).length_le)
  · simp

/-- If the collapsed list starts with a whitespace character, the original list
started with one too. -/
theorem collapseWs_head_ws {l : List Char} {d : Char} {t : List Char}
    (h : collapseWs l = d :: t) (hd : isPySpace d = true) :
    ∃ c t0, l = c :: t0 ∧ isPySpace c = true := by
  cases l with
  | nil => simp [collapseWs] at h
  | cons a rest =>
    rw [collapseWs_cons] at h
    by_cases ha : isPySpace a
    · exact ⟨a, rest, rfl, ha⟩
    · rw [if_neg ha] at h
      injection h with h1 _
      subst h1
      simp [hd] at ha

/-- No two adjacent characters of the collapsed list are both whitespace. -/
theorem collapseWs_chain : ∀ l : List Char, List.Chain' notBothWs (collapseWs l)
  | [] => by simp [collapseWs]
  | a :: rest => by
    rw [collapseWs_cons]
    by_cases ha : isPySpace a
    · rw [if_pos ha]
      refine List.chain'_cons'.mpr ⟨?_, collapseWs_chain (rest.dropWhile isPySpace)⟩
      intro y hy hboth
      cases hcw : collapseWs (rest.dropWhile isPySpace) with
      | nil => rw [hcw] at hy; simp at hy
      | cons d t =>
        rw [hcw] at hy
        simp only [List.head?_cons, Option.mem_def, Option.some.injEq] at hy
        subst hy
        obtain ⟨c, t0, heq, hc⟩ := collapseWs_head_ws hcw hboth.2
        have hcf := dropWhile_head_false (p := isPySpace) (l := rest) heq
        rw [hc] at hcf
        exact Bool.noConfusion hcf
    · rw [if_neg ha]
      refine List.chain'_cons'.mpr ⟨?_, collapseWs_chain rest⟩
      intro y _ hboth
      exact ha (by simpa using hboth.1)
termination_by l => l.length
decreasing_by
  · exact Nat.lt_succ_of_le ((List.dropWhile_sublist isPySpace).length_le)
  · simp

/-- On a list whose whitespace is already collapsed (all whitespace is `' '`,
no two adjacent whitespace characters, and the last character is not
whitespace), `collapseWs` is the identity. -/
theorem collapseWs_id :
    ∀ l : List Char,
      (∀ c ∈ l, isPySpace c = true → c = ' ') →
      List.Chain' notBothWs l →
      (∀ c, l.getLast? = some c → isPySpace c = false) →
      collapseWs l = l
  | [], _, _, _ => by simp [collapseWs]
  | a :: rest, hsp, hch, hlast => by
    rw [collapseWs_cons]
    by_cases ha : isPySpace a
    · have ha' : a = ' ' := hsp a (List.mem_cons_self _ _) ha
      cases rest with
      | nil =>
        exfalso
        have hf := hlast a (by simp)
        rw [hf] at ha
        exact Bool.noConfusion ha
      | cons b t =>
        have hb : isPySpace b = false := by
          have := (List.chain'_cons.mp hch).1
          by_cases hbb : isPySpace b
          · exact absurd ⟨ha, hbb⟩ this
          · simpa using hbb
        have hdrop : (b :: t).dropWhile isPySpace = b :: t := dropWhile_of_head_false hb
        rw [if_pos ha, hdrop, ha']
        congr 1
        exact collapseWs_id (b :: t) (fun c hc => hsp c (List.mem_cons_of_mem _ hc))
          (List.chain'_cons.mp hch).2
          (fun c hc => hlast c (by rw [List.getLast?_cons_cons]; exact hc))
    · rw [if_neg ha]
      congr 1
      cases rest with
      | nil => simp [collapseWs]
      | cons b t =>
        exact collapseWs_id (b :: t) (fun c hc => hsp c (List.mem_cons_of_mem _ hc))
          (List.chain'_cons.mp hch).2
          (fun c hc => hlast c (by rw [List.getLast?_cons_cons]; exact hc))
termination_by l => l.length

/-- The stripped list is an infix (here: prefix of a suffix) of the original;
in particular membership carries over. -/
theorem pyStrip_subset (l : List Char) : ∀ c ∈ pyStrip l, c ∈ l := by
  intro c hc
  have h1 : c ∈ pyStripLeft l := by
    have : pyStrip l = pyStripRight (pyStripLeft l) := rfl
    rw [this] at hc
    unfold pyStripRight at hc
    have := (List.dropWhile_sublist isPySpace).subset (List.mem_reverse.mp hc)
    exact List.mem_reverse.mp this
  exact (List.dropWhile_sublist isPySpace).subset h1

theorem pyStripLeft_head_false {l : List Char} {c : Char} {t : List Char}
    (h : pyStripLeft l = c :: t) : isPySpace c = false :=
  dropWhile_head_false h

/-- `pyStripRight` keeps a prefix of its argument: there is an explicit
decomposition. -/
theorem pyStripRight_append (l : List Char) :
    ∃ t, l = pyStripRight l ++ t := by
  refine ⟨(l.reverse.takeWhile isPySpace).reverse, ?_⟩
  unfold pyStripRight
  have h := List.takeWhile_append_dropWhile isPySpace l.reverse
  calc l = l.reverse.reverse := by rw [List.reverse_reverse]
    _ = (l.reverse.takeWhile isPySpace ++ l.reverse.dropWhile isPySpace).reverse := by rw [h]
    _ = (l.reverse.dropWhile isPySpace).reverse ++ (l.reverse.takeWhile isPySpace).reverse := by
          rw [List.reverse_append]

theorem pyStripRight_getLast_false (l : List Char) :
    ∀ c, (pyStripRight l).getLast? = some c → isPySpace c = false := by
  intro c hc
  unfold pyStripRight at hc
  rw [List.getLast?_reverse] at hc
  cases hdrop : l.reverse.dropWhile isPySpace with
  | nil => rw [hdrop] at hc; simp at hc
  | cons d t =>
    rw [hdrop] at hc
    simp only [List.head?_cons, Option.some.injEq] at hc
    subst hc
    exact dropWhile_head_false hdrop

theorem pyStripRight_head_eq {l : List Char} {c : Char} {t : List Char}
    (h : pyStripRight l = c :: t) : l.head? = some c := by
  obtain ⟨t2, ht2⟩ := pyStripRight_append l
  rw [ht2, h]
  simp

/-- Characterization of the result of `pyStrip`: head and last are not
whitespace. -/
theorem pyStrip_head_false {l : List Char} {c : Char} {t : List Char}
    (h : pyStrip l = c :: t) : isPySpace c = false := by
  unfold pyStrip at h
  have := pyStripRight_head_eq h
  cases hdrop : pyStripLeft l with
  | nil => rw [hdrop] at this; simp at this
  | cons d u =>
    rw [hdrop] at this
    simp only [List.head?_cons, Option.some.injEq] at this
    subst this
    exact pyStripLeft_head_false hdrop

theorem pyStrip_getLast_false (l : List Char) :
    ∀ c, (pyStrip l).getLast? = some c → isPySpace c = false :=
  pyStripRight_getLast_false _

/-- `pyStrip` preserves the adjacent-pair chain property. -/
theorem pyStrip_chain {l : List Char} (h : List.Chain' notBothWs l) :
    List.Chain' notBothWs (pyStrip l) := by
  have h1 : List.Chain' notBothWs (pyStripLeft l) := by
    have hsplit := List.takeWhile_append_dropWhile isPySpace l
    have : List.Chain' notBothWs (l.takeWhile isPySpace ++ l.dropWhile isPySpace) := by
      rw [hsplit]; exact h
    exact (List.chain'_append.mp this).2.1
  obtain ⟨t, ht⟩ := pyStripRight_append (pyStripLeft l)
  have : List.Chain' notBothWs (pyStrip l ++ t) := by
    unfold pyStrip
    rw [← ht]
    exact h1
  exact (List.chain'_append.mp this).1

/-- Stripping a list whose head is not whitespace changes nothing on the left. -/
theorem pyStripLeft_id {l : List Char}
    (h : ∀ c t, l = c :: t → isPySpace c = false) : pyStripLeft l = l := by
  cases l with
  | nil => rfl
  | cons c t => exact dropWhile_of_head_false (h c t rfl)

theorem pyStripRight_id {l : List Char}
    (h : ∀ c, l.getLast? = some c → isPySpace c = false) : pyStripRight l = l := by
  unfold pyStripRight
  cases hrev : l.reverse with
  | nil =>
    have : l = [] := by simpa using congrArg List.reverse hrev
    simp [this]
  | cons c t =>
    have hc : l.getLast? = some c := by
      rw [← List.head?_reverse, hrev]
      simp
    have hcf := h c hc
    rw [dropWhile_of_head_false hcf, ← hrev, List.reverse_reverse]

/-- Claim C9's core fact on already-normalized data: normalizing is the
identity on the output of `normalize_text`. -/
theorem pyStrip_id {l : List Char}
    (hh : ∀ c t, l = c :: t → isPySpace c = false)
    (hl : ∀ c, l.getLast? = some c → isPySpace c = false) : pyStrip l = l := by
  unfold pyStrip
  rw [pyStripLeft_id hh, pyStripRight_id hl]

/-- C9 (implicit, text_utils.py:113-116): `normalize_text` is idempotent. -/
theorem normalize_text_idempotent (s : String) :
    normalize_text (normalize_text s) = normalize_text s := by
  unfold normalize_text
  have hdata : (String.mk (pyStrip (collapseWs s.data))).data = pyStrip (collapseWs s.data) := rfl
  rw [hdata]
  set r := pyStrip (collapseWs s.data) with hr
  have hsp : ∀ c ∈ r, isPySpace c = true → c = ' ' := by
    intro c hc hws
    exact collapseWs_ws_eq_space s.data c (pyStrip_subset _ c hc) hws
  have hch : List.Chain' notBothWs r := pyStrip_chain (collapseWs_chain s.data)
  have hlast : ∀ c, r.getLast? = some c → isPySpace c = false := pyStrip_getLast_false _
  have hcoll : collapseWs r = r := collapseWs_id r hsp hch hlast
  rw [hcoll]
  have hhead : ∀ c t, r = c :: t → isPySpace c = false := by
    intro c t hct
    exact pyStrip_head_false (l := collapseWs s.data) (by rw [← hr, hct])
  rw [pyStrip_id hhead hlast]

/-! # Claims -/

/-! ## C8: label priority (roman numeral before alphabetic point) -/

/-- C8: `normalize_label` classifies in the fixed source order with the
roman-numeral (subpoint) pattern checked before the alphabetic-point
pattern, so the label `"(i)"` — which the alphabetic `POINT_LABEL_RE` also
matches — normalizes to token `"i"` of kind `"subpoint"`, never `"point"`. -/
theorem c8_label_i_is_subpoint :
    normalize_label "(i)" = ("i", "subpoint", false) ∧
    (reMatchStart POINT_LABEL_RE "(i)".data).isSome = true :=
  ⟨rfl, rfl⟩

/-- C2 (code bug): `_parse_point_tables` accepts no `is_direct` parameter,
yet every flush call in `_parse_article_direct_content` passes
`is_direct=True`; on an article whose body holds a table followed by further
paragraph content the flush fires and the call raises `TypeError`, so
`parse()` does not degrade silently as the claim requires. -/
theorem c2_direct_content_type_error :
    parsePointTablesParams.contains "is_direct" = false ∧
    parse_article_direct_content c2children "art-1" "1" "doc.html"
        { unit_ids := [], units := [] } = Except.error PyError.typeError :=
  ⟨rfl, rfl⟩

/-! ## C1: `parse()` never runs the citation extractor or resolver -/

theorem compute_children_counts_citations (units : List MUnit) :
    (compute_children_counts units).map MUnit.citations = units.map MUnit.citations := by
  simp [compute_children_counts]

theorem compute_is_stem_citations (units : List MUnit) :
    (compute_is_stem units).map MUnit.citations = units.map MUnit.citations := by
  simp [compute_is_stem]

theorem propagate_article_headings_citations :
    ∀ (cur : Option String) (units : List MUnit),
      (propagate_article_headings cur units).map MUnit.citations = units.map MUnit.citations
  | _, [] => rfl
  | cur, u :: rest => by
    rw [propagate_article_headings]
    simp only [List.map_cons]
    rw [propagate_article_headings_citations]

theorem compute_target_paths_citations (units : List MUnit) :
    (compute_target_paths units).map MUnit.citations = units.map MUnit.citations := by
  simp [compute_target_paths]

theorem compute_text_stats_citations (units : List MUnit) :
    (compute_text_stats units).map MUnit.citations = units.map MUnit.citations := by
  simp [compute_text_stats]

set_option maxRecDepth 40000 in
/-- C1 (code bug): `EUParser.parse` (engine.py:32-50) runs detection, the
builder walkers, counting, validation and `_enrich`, and returns — neither
`_extract_citations` nor `_resolve_citations` is called anywhere in the
pipeline, so every unit keeps its default empty `citations` list even when
its text contains citations the extractor would find (here the text of the
repository's own test `test_internal_simple_article_paragraph`). -/
theorem c1_parse_skips_citation_stages :
    (∀ built : List MUnit,
      (parse_pipeline_post_build built).map MUnit.citations = built.map MUnit.citations) ∧
    (parse_pipeline_post_build [c1unit]).map MUnit.citations = [[]] ∧
    extract_citations_from_text c1unit.text = [c1expected] := by
  refine ⟨?_, ?_, ?_⟩
  · intro built
    unfold parse_pipeline_post_build enrich_units
    rw [compute_text_stats_citations, compute_target_paths_citations,
      propagate_article_headings_citations, compute_is_stem_citations,
      compute_children_counts_citations]
  · rfl
  · rfl

theorem annotateOne_span_start (text : List Char) (c : Citation) :
    (annotateOne text c).span_start = c.span_start := by
  unfold annotateOne
  rfl

theorem annotate_preserves_sorted (text : List Char) (cits : List Citation)
    (h : List.Sorted citSpanRel cits) :
    List.Sorted citSpanRel (annotate_connective_phrases text cits) := by
  unfold annotate_connective_phrases
  refine List.Pairwise.map (annotateOne text) (fun a b hab => ?_) h
  unfold citSpanRel
  rw [annotateOne_span_start, annotateOne_span_start]
  exact hab

/-- C10 (implicit, citations.py:407-412): for every input text the citation
list returned by `_extract_citations_from_text` is sorted in nondecreasing
order of `span_start` — the cascade's raw output is put through a stable
sort on `span_start` before the connective-phrase annotation, which only
rewrites `connective_phrase`. -/
theorem c10_extraction_sorted_by_span_start (text : String) :
    List.Sorted citSpanRel (extract_citations_from_text text) := by
  unfold extract_citations_from_text
  exact annotate_preserves_sorted _ _ (List.sorted_insertionSort citSpanRel _)

/-! ## Decimal rendering round-trip (shared by C5 and C7) -/

theorem natCharsAux_append (fuel : Nat) :
    ∀ (n : Nat) (acc : List Char), natCharsAux fuel n acc = natCharsAux fuel n [] ++ acc := by
  induction fuel with
  | zero => intro n acc; simp [natCharsAux]
  | succ fuel ih =>
    intro n acc
    rw [natCharsAux, natCharsAux]
    by_cases h10 : n < 10
    · rw [if_pos h10, if_pos h10]
      rfl
    · rw [if_neg h10, if_neg h10, ih (n / 10) (digitChar (n % 10) :: acc),
        ih (n / 10) [digitChar (n % 10)]]
      simp

theorem digitChar_toNat (d : Nat) (h : d < 10) : (digitChar d).toNat = 48 + d := by
  interval_cases d <;> rfl

theorem charsToNat_natCharsAux :
    ∀ (fuel n : Nat), n < 10 ^ fuel → charsToNat (natCharsAux fuel n []) = n := by
  intro fuel
  induction fuel with
  | zero =>
    intro n h
    simp only [pow_zero, Nat.lt_one_iff] at h
    subst h
    rfl
  | succ fuel ih =>
    intro n h
    rw [natCharsAux]
    by_cases h10 : n < 10
    · rw [if_pos h10]
      show charsToNat [digitChar n] = n
      unfold charsToNat
      simp [digitChar_toNat n h10]
    · rw [if_neg h10, natCharsAux_append]
      have hdiv : n / 10 < 10 ^ fuel := by
        rw [Nat.div_lt_iff_lt_mul (by omega)]
        calc n < 10 ^ (fuel + 1) := h
          _ = 10 ^ fuel * 10 := by ring
      unfold charsToNat
      rw [List.foldl_append]
      have hbase := ih (n / 10) hdiv
      unfold charsToNat at hbase
      rw [hbase]
      simp only [List.foldl_cons, List.foldl_nil]
      rw [digitChar_toNat (n % 10) (Nat.mod_lt _ (by omega))]
      omega

theorem charsToNat_natChars (n : Nat) : charsToNat (natChars n) = n := by
  unfold natChars
  refine charsToNat_natCharsAux (n + 1) n ?_
  calc n < 10 ^ n := Nat.lt_pow_self (by omega) n
    _ ≤ 10 ^ (n + 1) := Nat.pow_le_pow_right (by omega) (by omega)

theorem charsToNat_natToStr (n : Nat) : charsToNat (natToStr n).data = n :=
  charsToNat_natChars n

theorem natToStr_inj {m n : Nat} (h : natToStr m = natToStr n) : m = n := by
  have hd : (natToStr m).data = (natToStr n).data := congrArg String.data h
  calc m = charsToNat (natToStr m).data := (charsToNat_natToStr m).symm
    _ = charsToNat (natToStr n).data := by rw [hd]
    _ = n := charsToNat_natToStr n

/-! ## C7: act year/number disambiguation and CELEX derivation -/

set_option maxHeartbeats 1000000 in
/-- C7 counterexample: `"1900"` is a four-digit component whose value lies
in the claimed plausible range 1900–2100, yet `_parse_act_year_number`
yields no year for the components `679/1900` (the code requires
`1900 < year`, excluding 1900 itself). -/
theorem c7_counterexample :
    (charsToNat "1900".data = 1900 ∧ "1900".length = 4 ∧
      1900 ≥ 1900 ∧ 1900 ≤ 2100) ∧
    parse_act_year_number "679" "1900" = none := by
  exact ⟨⟨rfl, rfl, by omega, by omega⟩, rfl⟩

set_option maxHeartbeats 1000000 in
/-- C7 amended: in `_parse_act_year_number` the component taken as the act
year is one whose value `v` satisfies `1900 < v ≤ 2100` (strictly above
1900, not from 1900 on; the first component is preferred when both
qualify); `_to_celex` derives sector `'3'` + zero-padded year + the type
letter (regulation→R, directive→L, decision→D) + the act number zero-padded
to four digits; and the scenario text yields exactly the claimed citation. -/
theorem c7_amended :
    (∀ p1 p2 : Nat, 1900 < p1 → p1 ≤ 2100 →
        parse_act_year_number (natToStr p1) (natToStr p2) = some (p1, p2)) ∧
    (∀ p1 p2 : Nat, ¬(1900 < p1 ∧ p1 ≤ 2100) → 1900 < p2 → p2 ≤ 2100 →
        parse_act_year_number (natToStr p1) (natToStr p2) = some (p2, p1)) ∧
    (∀ y n : Nat,
        to_celex "regulation" y n = some ("3" ++ pad4 y ++ "R" ++ pad4 n) ∧
        to_celex "directive" y n = some ("3" ++ pad4 y ++ "L" ++ pad4 n) ∧
        to_celex "decision" y n = some ("3" ++ pad4 y ++ "D" ++ pad4 n)) ∧
    extract_citations_from_text "in accordance with Regulation (EU) 2016/679." =
      [c7expected] := by
  refine ⟨?_, ?_, ?_, ?_⟩
  · intro p1 p2 h1 h2
    unfold parse_act_year_number
    rw [charsToNat_natToStr, charsToNat_natToStr]
    rw [if_pos]
    simp only [Bool.and_eq_true, decide_eq_true_eq]
    exact ⟨h1, h2⟩
  · intro p1 p2 hne h1 h2
    unfold parse_act_year_number
    rw [charsToNat_natToStr, charsToNat_natToStr]
    rw [if_neg, if_pos]
    · simp only [Bool.and_eq_true, decide_eq_true_eq]
      exact ⟨h1, h2⟩
    · simp only [Bool.and_eq_true, decide_eq_true_eq]
      exact fun h => hne h
  · intro y n
    exact ⟨rfl, rfl, rfl⟩
  · rfl

/-- C7 amended, instantiated: the disambiguation at concrete components
`2016/679` and `679/2016`. -/
theorem c7_amended_witness :
    parse_act_year_number (natToStr 2016) (natToStr 679) = some (2016, 679) ∧
    parse_act_year_number (natToStr 679) (natToStr 2016) = some (2016, 679) :=
  ⟨c7_amended.1 2016 679 (by omega) (by omega),
   c7_amended.2.1 679 2016 (by omega) (by omega) (by omega)⟩

theorem spanNonOverlap_symm : Symmetric spanNonOverlap := by
  intro a b h hab
  exact h ⟨hab.2, hab.1⟩

theorem spanOk_external_with_article : builderSpanOk build_external_with_article := by
  intro m text c hc
  unfold build_external_with_article at hc
  split at hc
  · simp at hc
  · simp only [List.mem_singleton] at hc
    subst hc
    exact ⟨rfl, rfl⟩

theorem spanOk_external_standalone : builderSpanOk build_external_standalone := by
  intro m text c hc
  unfold build_external_standalone at hc
  split at hc
  · simp at hc
  · simp only [List.mem_singleton] at hc
    subst hc
    exact ⟨rfl, rfl⟩

theorem spanOk_treaty_citation (m : RawMatch) (text : List Char) (code : String)
    (c : Citation) (hc : c ∈ build_treaty_citation m text code) :
    c.span_start = m.mstart ∧ c.span_end = m.mstop := by
  unfold build_treaty_citation at hc
  simp only [List.mem_singleton] at hc
  subst hc
  exact ⟨rfl, rfl⟩

theorem spanOk_treaty_short : builderSpanOk build_treaty_short := by
  intro m text c hc
  exact spanOk_treaty_citation m text _ c hc

theorem spanOk_treaty_tfeu_long : builderSpanOk build_treaty_tfeu_long := by
  intro m text c hc
  exact spanOk_treaty_citation m text _ c hc

theorem spanOk_treaty_teu_long : builderSpanOk build_treaty_teu_long := by
  intro m text c hc
  exact spanOk_treaty_citation m text _ c hc

theorem spanOk_treaty_generic : builderSpanOk build_treaty_generic := by
  intro m text c hc
  exact spanOk_treaty_citation m text _ c hc

theorem spanOk_treaty_charter : builderSpanOk build_treaty_charter := by
  intro m text c hc
  exact spanOk_treaty_citation m text _ c hc

theorem spanOk_treaty_protocol : builderSpanOk build_treaty_protocol := by
  intro m text c hc
  simp only [build_treaty_protocol, List.mem_singleton] at hc
  subst hc
  exact ⟨rfl, rfl⟩

theorem spanOk_internal_article_point_range : builderSpanOk build_internal_article_point_range := by
  intro m text c hc
  simp only [build_internal_article_point_range, List.mem_singleton] at hc
  subst hc
  exact ⟨rfl, rfl⟩

theorem spanOk_internal_article_point : builderSpanOk build_internal_article_point := by
  intro m text c hc
  simp only [build_internal_article_point, List.mem_singleton] at hc
  subst hc
  exact ⟨rfl, rfl⟩

theorem spanOk_internal_article_range : builderSpanOk build_internal_article_range := by
  intro m text c hc
  simp only [build_internal_article_range, List.mem_singleton] at hc
  subst hc
  exact ⟨rfl, rfl⟩

theorem spanOk_internal_article_enumeration : builderSpanOk build_internal_article_enumeration := by
  intro m text c hc
  unfold build_internal_article_enumeration at hc
  simp only [List.mem_filterMap] at hc
  obtain ⟨tok, _, htok⟩ := hc
  split at htok
  · simp at htok
  · simp only [Option.some.injEq] at htok
    subst htok
    exact ⟨rfl, rfl⟩

theorem spanOk_internal_article_or : builderSpanOk build_internal_article_or := by
  intro m text c hc
  unfold build_internal_article_or at hc
  simp only [List.mem_filterMap] at hc
  obtain ⟨tok, _, htok⟩ := hc
  split at htok
  · simp at htok
  · simp only [Option.some.injEq] at htok
    subst htok
    exact ⟨rfl, rfl⟩

theorem spanOk_internal_article_multi_paragraph :
    builderSpanOk build_internal_article_multi_paragraph := by
  intro m text c hc
  unfold build_internal_article_multi_paragraph at hc
  simp only [List.mem_filterMap] at hc
  obtain ⟨tok, _, htok⟩ := hc
  split at htok
  · simp at htok
  · simp only [Option.some.injEq] at htok
    subst htok
    exact ⟨rfl, rfl⟩

theorem spanOk_internal_article_simple : builderSpanOk build_internal_article_simple := by
  intro m text c hc
  simp only [build_internal_article_simple, List.mem_singleton] at hc
  subst hc
  exact ⟨rfl, rfl⟩

theorem spanOk_internal_point_enumeration : builderSpanOk build_internal_point_enumeration := by
  intro m text c hc
  unfold build_internal_point_enumeration at hc
  simp only [List.mem_filterMap] at hc
  obtain ⟨tok, _, htok⟩ := hc
  split at htok
  · simp at htok
  · simp only [Option.some.injEq] at htok
    subst htok
    exact ⟨rfl, rfl⟩

theorem spanOk_internal_paragraph_enumeration :
    builderSpanOk build_internal_paragraph_enumeration := by
  intro m text c hc
  unfold build_internal_paragraph_enumeration at hc
  simp only [List.mem_filterMap] at hc
  obtain ⟨tok, _, htok⟩ := hc
  split at htok
  · simp at htok
  · simp only [Option.some.injEq] at htok
    subst htok
    exact ⟨rfl, rfl⟩

theorem spanOk_internal_paragraph_of_this_article :
    builderSpanOk build_internal_paragraph_of_this_article := by
  intro m text c hc
  simp only [build_internal_paragraph_of_this_article, List.mem_singleton] at hc
  subst hc
  exact ⟨rfl, rfl⟩

theorem spanOk_internal_paragraph_range : builderSpanOk build_internal_paragraph_range := by
  intro m text c hc
  simp only [build_internal_paragraph_range, List.mem_singleton] at hc
  subst hc
  exact ⟨rfl, rfl⟩

theorem spanOk_internal_paragraph_simple : builderSpanOk build_internal_paragraph_simple := by
  intro m text c hc
  simp only [build_internal_paragraph_simple, List.mem_singleton] at hc
  subst hc
  exact ⟨rfl, rfl⟩

theorem spanOk_internal_point_of_subparagraph :
    builderSpanOk build_internal_point_of_subparagraph := by
  intro m text c hc
  simp only [build_internal_point_of_subparagraph, List.mem_singleton] at hc
  subst hc
  exact ⟨rfl, rfl⟩

theorem spanOk_internal_subparagraph_comma_point :
    builderSpanOk build_internal_subparagraph_comma_point := by
  intro m text c hc
  simp only [build_internal_subparagraph_comma_point, List.mem_singleton] at hc
  subst hc
  exact ⟨rfl, rfl⟩

theorem spanOk_internal_subparagraph_of_paragraph :
    builderSpanOk build_internal_subparagraph_of_paragraph := by
  intro m text c hc
  simp only [build_internal_subparagraph_of_paragraph, List.mem_singleton] at hc
  subst hc
  exact ⟨rfl, rfl⟩

theorem spanOk_internal_subparagraph_pair : builderSpanOk build_internal_subparagraph_pair := by
  intro m text c hc
  unfold build_internal_subparagraph_pair at hc
  rcases List.mem_append.mp hc with h | h <;> split at h <;>
    first
      | (simp only [List.mem_singleton] at h; subst h; exact ⟨rfl, rfl⟩)
      | exact absurd h (List.not_mem_nil c)

theorem spanOk_internal_subparagraph : builderSpanOk build_internal_subparagraph := by
  intro m text c hc
  simp only [build_internal_subparagraph, List.mem_singleton] at hc
  subst hc
  exact ⟨rfl, rfl⟩

theorem spanOk_internal_chapter_section_title :
    builderSpanOk build_internal_chapter_section_title := by
  intro m text c hc
  simp only [build_internal_chapter_section_title, List.mem_singleton] at hc
  subst hc
  exact ⟨rfl, rfl⟩

theorem spanOk_internal_annex_single (m : RawMatch) (text : List Char)
    (annex part sl : Option String) (c : Citation)
    (hc : c ∈ build_internal_annex.buildInternalAnnexSingle m text annex part sl) :
    c.span_start = m.mstart ∧ c.span_end = m.mstop := by
  simp only [build_internal_annex.buildInternalAnnexSingle, List.mem_singleton] at hc
  subst hc
  exact ⟨rfl, rfl⟩

theorem spanOk_internal_annex : builderSpanOk build_internal_annex := by
  intro m text c hc
  unfold build_internal_annex at hc
  rcases hfa : capGet m.caps "annex_first" with _ | fa <;>
    rcases hsa : capGet m.caps "annex_second" with _ | sa <;>
    simp only [hfa, hsa] at hc
  · exact spanOk_internal_annex_single m text _ _ _ c hc
  · exact spanOk_internal_annex_single m text _ _ _ c hc
  · exact spanOk_internal_annex_single m text _ _ _ c hc
  · split at hc
    · rcases List.mem_cons.mp hc with h | h
      · subst h; exact ⟨rfl, rfl⟩
      · rcases List.mem_cons.mp h with h2 | h2
        · subst h2; exact ⟨rfl, rfl⟩
        · exact absurd h2 (List.not_mem_nil c)
    · exact spanOk_internal_annex_single m text _ _ _ c hc

theorem spanOk_relative_reference : builderSpanOk build_relative_reference := by
  intro m text c hc
  simp only [build_relative_reference, List.mem_singleton] at hc
  subst hc
  exact ⟨rfl, rfl⟩

/-- Every builder in the cascade emits citations spanning exactly the
accepted match. -/
theorem buildersList_spanOk : ∀ pb ∈ buildersList, builderSpanOk pb.2 := by
  intro pb hpb
  simp only [buildersList, List.mem_cons, List.not_mem_nil, or_false] at hpb
  rcases hpb with rfl | rfl | rfl | rfl | rfl | rfl | rfl | rfl | rfl | rfl | rfl | rfl | rfl |
    rfl | rfl | rfl | rfl | rfl | rfl | rfl | rfl | rfl | rfl | rfl | rfl | rfl | rfl | rfl |
    rfl | rfl | rfl | rfl | rfl | rfl | rfl | rfl | rfl
  · exact spanOk_external_with_article
  · exact spanOk_external_with_article
  · exact spanOk_external_standalone
  · exact spanOk_treaty_short
  · exact spanOk_treaty_tfeu_long
  · exact spanOk_treaty_teu_long
  · exact spanOk_treaty_charter
  · exact spanOk_treaty_generic
  · exact spanOk_treaty_protocol
  · exact spanOk_internal_point_of_subparagraph
  · exact spanOk_internal_subparagraph_comma_point
  · exact spanOk_internal_subparagraph_of_paragraph
  · exact spanOk_internal_article_point_range
  · exact spanOk_internal_article_point_range
  · exact spanOk_internal_article_point
  · exact spanOk_internal_article_point
  · exact spanOk_internal_article_range
  · exact spanOk_internal_article_enumeration
  · exact spanOk_internal_article_or
  · exact spanOk_internal_article_multi_paragraph
  · exact spanOk_internal_article_simple
  · exact spanOk_internal_point_enumeration
  · exact spanOk_internal_paragraph_enumeration
  · exact spanOk_internal_paragraph_of_this_article
  · exact spanOk_internal_paragraph_range
  · exact spanOk_internal_paragraph_simple
  · exact spanOk_internal_subparagraph_pair
  · exact spanOk_internal_subparagraph
  · exact spanOk_internal_subparagraph
  · exact spanOk_internal_subparagraph
  · exact spanOk_internal_chapter_section_title
  · exact spanOk_internal_chapter_section_title
  · exact spanOk_internal_annex
  · exact spanOk_internal_annex
  · exact spanOk_internal_annex
  · exact spanOk_internal_annex
  · exact spanOk_relative_reference

theorem is_overlapping_false {s e : Nat} {cons : List (Nat × Nat)}
    (h : is_overlapping s e cons = false) :
    ∀ sp ∈ cons, spanNonOverlap sp (s, e) := by
  intro sp hsp hov
  unfold is_overlapping at h
  rw [List.any_eq_false] at h
  have hsp2 := h sp hsp
  simp only [Bool.and_eq_true, decide_eq_true_eq, not_and] at hsp2
  exact absurd hov.1 (by simpa using hsp2 hov.2)

theorem collectStep_inv {text : List Char} {builder : RawMatch → List Char → List Citation}
    (hb : builderSpanOk builder) (acc : List Citation × List (Nat × Nat)) (m : RawMatch)
    (h1 : ∀ c ∈ acc.1, (c.span_start, c.span_end) ∈ acc.2)
    (h2 : acc.2.Pairwise spanNonOverlap) :
    (∀ sp ∈ acc.2, sp ∈ (collectStep text builder acc m).2) ∧
    (∀ c ∈ (collectStep text builder acc m).1,
        (c.span_start, c.span_end) ∈ (collectStep text builder acc m).2) ∧
    (collectStep text builder acc m).2.Pairwise spanNonOverlap := by
  unfold collectStep
  split
  · exact ⟨fun sp h => h, h1, h2⟩
  · next hov =>
    split
    · exact ⟨fun sp h => h, h1, h2⟩
    · have hovf : is_overlapping m.mstart m.mstop acc.2 = false :=
        Bool.eq_false_iff.mpr (fun h => hov (by rw [h]))
      refine ⟨?_, ?_, ?_⟩
      · intro sp hsp
        exact List.mem_append_left _ hsp
      · intro c hc
        rcases List.mem_append.mp hc with h | h
        · exact List.mem_append_left _ (h1 c h)
        · obtain ⟨hs, he⟩ := hb m text c h
          rw [hs, he]
          exact List.mem_append_right _ (List.mem_singleton.mpr rfl)
      · rw [List.pairwise_append]
        refine ⟨h2, List.pairwise_singleton _ _, ?_⟩
        intro a ha b hbmem
        rw [List.mem_singleton.mp hbmem]
        exact is_overlapping_false hovf a ha

theorem foldl_collectStep_inv {text : List Char}
    {builder : RawMatch → List Char → List Citation} (hb : builderSpanOk builder) :
    ∀ (ms : List RawMatch) (acc : List Citation × List (Nat × Nat)),
      (∀ c ∈ acc.1, (c.span_start, c.span_end) ∈ acc.2) →
      acc.2.Pairwise spanNonOverlap →
      (∀ sp ∈ acc.2, sp ∈ (ms.foldl (collectStep text builder) acc).2) ∧
      (∀ c ∈ (ms.foldl (collectStep text builder) acc).1,
          (c.span_start, c.span_end) ∈ (ms.foldl (collectStep text builder) acc).2) ∧
      (ms.foldl (collectStep text builder) acc).2.Pairwise spanNonOverlap
  | [], acc, h1, h2 => ⟨fun sp h => h, h1, h2⟩
  | m :: ms, acc, h1, h2 => by
    simp only [List.foldl_cons]
    obtain ⟨s1, s2, s3⟩ := collectStep_inv hb acc m h1 h2
    obtain ⟨t1, t2, t3⟩ := foldl_collectStep_inv hb ms (collectStep text builder acc m) s2 s3
    exact ⟨fun sp h => t1 sp (s1 sp h), t2, t3⟩

theorem collect_matches_inv {text : List Char} {pat : RE} {cons : List (Nat × Nat)}
    {builder : RawMatch → List Char → List Citation} (hb : builderSpanOk builder)
    (h2 : cons.Pairwise spanNonOverlap) :
    (∀ sp ∈ cons, sp ∈ (collect_matches text pat cons builder).2) ∧
    (∀ c ∈ (collect_matches text pat cons builder).1,
        (c.span_start, c.span_end) ∈ (collect_matches text pat cons builder).2) ∧
    (collect_matches text pat cons builder).2.Pairwise spanNonOverlap := by
  unfold collect_matches
  exact foldl_collectStep_inv hb _ ([], cons) (by intro c hc; simp at hc) h2

theorem foldl_cascadeStep_inv (text : List Char) :
    ∀ (pbs : List (RE × (RawMatch → List Char → List Citation)))
      (acc : List Citation × List (Nat × Nat)),
      (∀ pb ∈ pbs, builderSpanOk pb.2) →
      (∀ c ∈ acc.1, (c.span_start, c.span_end) ∈ acc.2) →
      acc.2.Pairwise spanNonOverlap →
      (∀ c ∈ (pbs.foldl (cascadeStep text) acc).1,
          (c.span_start, c.span_end) ∈ (pbs.foldl (cascadeStep text) acc).2) ∧
      (pbs.foldl (cascadeStep text) acc).2.Pairwise spanNonOverlap
  | [], acc, _, h1, h2 => ⟨h1, h2⟩
  | pb :: pbs, acc, hbs, h1, h2 => by
    simp only [List.foldl_cons]
    obtain ⟨mono, hres1, hres2⟩ :=
      @collect_matches_inv text pb.1 acc.2 pb.2
        (hbs pb (List.mem_cons_self pb pbs)) h2
    refine foldl_cascadeStep_inv text pbs (cascadeStep text acc pb)
      (fun q hq => hbs q (List.mem_cons_of_mem pb hq)) ?_ hres2
    intro c hc
    rcases List.mem_append.mp hc with h | h
    · exact mono _ (h1 c h)
    · exact hres1 c h

/-- The two global span facts of the cascade: every emitted citation carries
the span of its accepted match (and that span is recorded as consumed), and
the consumed spans are pairwise non-overlapping. -/
theorem extractCore_inv (text : List Char) :
    (∀ c ∈ (extractCore text).1, (c.span_start, c.span_end) ∈ (extractCore text).2) ∧
    (extractCore text).2.Pairwise spanNonOverlap := by
  unfold extractCore
  exact foldl_cascadeStep_inv text buildersList ([], []) buildersList_spanOk
    (by intro c hc; simp at hc) (List.Pairwise.nil)

theorem annotateOne_span_end (text : List Char) (c : Citation) :
    (annotateOne text c).span_end = c.span_end := by
  unfold annotateOne
  rfl

/-- Every citation of the final extraction output shares its span with some
citation of the raw cascade output. -/
theorem extract_mem_core {text : String} {c : Citation}
    (hc : c ∈ extract_citations_from_text text) :
    ∃ c0 ∈ (extractCore text.data).1,
      c.span_start = c0.span_start ∧ c.span_end = c0.span_end := by
  unfold extract_citations_from_text annotate_connective_phrases at hc
  obtain ⟨c1, hc1, hmap⟩ := List.mem_map.mp hc
  have hperm : c1 ∈ (extractCore text.data).1 :=
    (List.perm_insertionSort citSpanRel (extractCore text.data).1).subset hc1
  refine ⟨c1, hperm, ?_, ?_⟩
  · rw [← hmap, annotateOne_span_start]
  · rw [← hmap, annotateOne_span_end]

set_option maxHeartbeats 2000000 in
/-- C3 counterexample: on the text `"points (a) and (b) apply."` the
enumeration pattern emits two distinct citations from one accepted match;
they carry the identical span `[0, 18)`, and two identical non-empty
half-open intervals overlap — so "no two citations of one unit have
overlapping `[span_start, span_end)`" fails exactly for the
enumeration-emitted citations the claim includes. -/
theorem c3_counterexample :
    extract_citations_from_text "points (a) and (b) apply." = [c3ex1, c3ex2] ∧
    c3ex1 ≠ c3ex2 ∧
    c3ex1.span_start < c3ex2.span_end ∧ c3ex2.span_start < c3ex1.span_end := by
  refine ⟨rfl, ?_, ?_, ?_⟩
  · intro h
    exact absurd (congrArg Citation.point h) (by simp [c3ex1, c3ex2])
  · show (0 : Nat) < 18; omega
  · show (0 : Nat) < 18; omega

/-- C3 amended: any two citations extracted from one unit's text either
carry the identical span — which happens exactly when one accepted match
emitted both, as with enumeration patterns — or have non-overlapping
half-open spans. -/
theorem c3_amended_span_discipline (text : String) (c1 c2 : Citation)
    (h1 : c1 ∈ extract_citations_from_text text)
    (h2 : c2 ∈ extract_citations_from_text text) :
    (c1.span_start = c2.span_start ∧ c1.span_end = c2.span_end) ∨
    ¬(c1.span_start < c2.span_end ∧ c2.span_start < c1.span_end) := by
  obtain ⟨d1, hd1, hs1, he1⟩ := extract_mem_core h1
  obtain ⟨d2, hd2, hs2, he2⟩ := extract_mem_core h2
  obtain ⟨hmem, hpw⟩ := extractCore_inv text.data
  have hsp1 := hmem d1 hd1
  have hsp2 := hmem d2 hd2
  by_cases heq : (d1.span_start, d1.span_end) = (d2.span_start, d2.span_end)
  · left
    have hfst := congrArg Prod.fst heq
    have hsnd := congrArg Prod.snd heq
    simp only [] at hfst hsnd
    exact ⟨by rw [hs1, hs2, hfst], by rw [he1, he2, hsnd]⟩
  · right
    have hno : spanNonOverlap (d1.span_start, d1.span_end) (d2.span_start, d2.span_end) :=
      List.Pairwise.forall spanNonOverlap_symm hpw hsp1 hsp2 heq
    intro hov
    exact hno ⟨by rw [← hs1, ← he2]; exact hov.1, by rw [← hs2, ← he1]; exact hov.2⟩

set_option maxHeartbeats 2000000 in
/-- C3 amended, instantiated at the counterexample text: the two
enumeration citations fall into the identical-span case. -/
theorem c3_amended_witness :
    c3ex1.span_start = c3ex2.span_start ∧ c3ex1.span_end = c3ex2.span_end := by
  have he : extract_citations_from_text "points (a) and (b) apply." = [c3ex1, c3ex2] := rfl
  have h1 : c3ex1 ∈ extract_citations_from_text "points (a) and (b) apply." := by
    rw [he]; exact List.mem_cons_self _ _
  have h2 : c3ex2 ∈ extract_citations_from_text "points (a) and (b) apply." := by
    rw [he]; exact List.mem_cons_of_mem _ (List.mem_cons_self _ _)
  rcases c3_amended_span_discipline "points (a) and (b) apply." c3ex1 c3ex2 h1 h2 with h | h
  · exact h
  · exact absurd ⟨by decide, by decide⟩ h

set_option maxHeartbeats 2000000 in
/-- C4: the cascade processes the patterns in the fixed `buildersList`
order; within one pattern candidates are considered longest-first then
leftmost (`matchRel` is exactly Python's sort key `(-(end-start), start)`,
and `collect_matches` folds over the `matchRel`-sorted matches); a span is
consumed only if it overlaps no span already consumed by this or an earlier
pattern, so consumed spans stay pairwise non-overlapping across the whole
cascade; consequently `"Article 3 of Regulation (EU) 2016/679"` is claimed
whole by the external pattern and the generic bare `"Article 3"` and
standalone-act matches are rejected. -/
theorem c4_cascade_priority :
    (∀ ms : List RawMatch, List.Sorted matchRel (List.insertionSort matchRel ms)) ∧
    (∀ text : List Char, (extractCore text).2.Pairwise spanNonOverlap) ∧
    extract_citations_from_text "Article 3 of Regulation (EU) 2016/679 shall apply." =
      [c4expected] := by
  refine ⟨fun ms => List.sorted_insertionSort matchRel ms,
    fun text => (extractCore_inv text).2, rfl⟩

/-! ## C5: unique unit ids and smallest-suffix renaming -/

theorem contains_iff_mem (l : List String) (a : String) : l.contains a = true ↔ a ∈ l :=
  List.elem_iff

theorem suffixed_id_inj {base : String} {k1 k2 : Nat}
    (h : base ++ "_" ++ natToStr k1 = base ++ "_" ++ natToStr k2) : k1 = k2 := by
  have hd : (base ++ "_" ++ natToStr k1).data = (base ++ "_" ++ natToStr k2).data :=
    congrArg String.data h
  rw [String.data_append, String.data_append, String.data_append, String.data_append] at hd
  rw [List.append_assoc, List.append_assoc] at hd
  have h2 := List.append_cancel_left hd
  have h3 := List.append_cancel_left h2
  calc k1 = charsToNat (natToStr k1).data := (charsToNat_natToStr k1).symm
    _ = charsToNat (natToStr k2).data := by rw [h3]
    _ = k2 := charsToNat_natToStr k2

/-- Pigeonhole: among the suffixes `1 .. |ids| + 1` at least one produces an
id not yet in `ids`. -/
theorem exists_free_suffix (ids : List String) (base : String) :
    ∃ k, 1 ≤ k ∧ k ≤ ids.length + 1 ∧ (base ++ "_" ++ natToStr k) ∉ ids := by
  by_contra hcon
  push_neg at hcon
  have hall : ∀ x ∈ (List.range (ids.length + 1)).map
      (fun i => base ++ "_" ++ natToStr (i + 1)), x ∈ ids := by
    intro x hx
    obtain ⟨i, hi, hxi⟩ := List.mem_map.mp hx
    rw [List.mem_range] at hi
    exact hxi ▸ hcon (i + 1) (by omega) (by omega)
  have hnd : ((List.range (ids.length + 1)).map
      (fun i => base ++ "_" ++ natToStr (i + 1))).Nodup := by
    refine (List.nodup_range _).map ?_
    intro a b hab
    have := suffixed_id_inj hab
    omega
  have hsub : ((List.range (ids.length + 1)).map
      (fun i => base ++ "_" ++ natToStr (i + 1))).toFinset ⊆ ids.toFinset := by
    intro x hx
    rw [List.mem_toFinset] at hx ⊢
    exact hall x hx
  have hcard := Finset.card_le_card hsub
  rw [List.toFinset_card_of_nodup hnd] at hcard
  simp only [List.length_map, List.length_range] at hcard
  have := ids.toFinset_card_le
  omega

theorem findFreeSuffixAux_spec (ids : List String) (base : String) :
    ∀ (fuel k : Nat),
      (∃ j, k ≤ j ∧ j < k + fuel ∧ (base ++ "_" ++ natToStr j) ∉ ids) →
      ((base ++ "_" ++ natToStr (findFreeSuffixAux ids base fuel k)) ∉ ids ∧
        k ≤ findFreeSuffixAux ids base fuel k ∧
        ∀ j, k ≤ j → j < findFreeSuffixAux ids base fuel k →
          (base ++ "_" ++ natToStr j) ∈ ids)
  | 0, k, h => by
    obtain ⟨j, hj1, hj2, _⟩ := h
    omega
  | fuel + 1, k, h => by
    rw [findFreeSuffixAux]
    by_cases hmem : ids.contains (base ++ "_" ++ natToStr k) = true
    · rw [if_pos hmem]
      have hkmem : (base ++ "_" ++ natToStr k) ∈ ids := (contains_iff_mem ids _).mp hmem
      obtain ⟨j, hj1, hj2, hj3⟩ := h
      have hjk : j ≠ k := fun he => hj3 (he ▸ hkmem)
      obtain ⟨r1, r2, r3⟩ := findFreeSuffixAux_spec ids base fuel (k + 1)
        ⟨j, by omega, by omega, hj3⟩
      refine ⟨r1, by omega, ?_⟩
      intro j2 hj21 hj22
      by_cases hj2k : j2 = k
      · exact hj2k ▸ hkmem
      · exact r3 j2 (by omega) hj22
    · rw [if_neg hmem]
      refine ⟨?_, Nat.le_refl k, ?_⟩
      · intro hk
        exact hmem ((contains_iff_mem ids _).mpr hk)
      · intro j hj1 hj2
        omega

/-- The behavior of one `_add_unit` call: the unit is appended at the end
with a final id that is fresh; on collision the final id carries the
smallest free numeric suffix. -/
theorem add_unit_spec (st : ParserState) (u : MUnit) :
    ∃ fid, fid ∉ st.unit_ids ∧
      (add_unit st u) = { unit_ids := st.unit_ids ++ [fid],
                          units := st.units ++ [{ u with id := fid }] } ∧
      (u.id ∉ st.unit_ids → fid = u.id) ∧
      (u.id ∈ st.unit_ids →
        ∃ k, 1 ≤ k ∧ fid = u.id ++ "_" ++ natToStr k ∧
          (∀ j, 1 ≤ j → j < k → (u.id ++ "_" ++ natToStr j) ∈ st.unit_ids)) := by
  unfold add_unit
  by_cases hc : st.unit_ids.contains u.id = true
  · have hmem : u.id ∈ st.unit_ids := (contains_iff_mem _ _).mp hc
    obtain ⟨k0, hk01, hk02, hk03⟩ := exists_free_suffix st.unit_ids u.id
    obtain ⟨r1, r2, r3⟩ := findFreeSuffixAux_spec st.unit_ids u.id (st.unit_ids.length + 1) 1
      ⟨k0, hk01, by omega, hk03⟩
    set K := findFreeSuffixAux st.unit_ids u.id (st.unit_ids.length + 1) 1 with hK
    refine ⟨u.id ++ "_" ++ natToStr K, r1, ?_, ?_, ?_⟩
    · rw [if_pos hc]
      have hcf : st.unit_ids.contains (u.id ++ "_" ++ natToStr K) = false := by
        rw [Bool.eq_false_iff]
        intro h
        exact r1 ((contains_iff_mem _ _).mp h)
      simp only [hcf, Bool.false_eq_true, if_false]
    · intro hnm
      exact absurd hmem hnm
    · intro _
      exact ⟨K, r2, rfl, r3⟩
  · have hnm : u.id ∉ st.unit_ids := fun h => hc ((contains_iff_mem _ _).mpr h)
    refine ⟨u.id, hnm, ?_, fun _ => rfl, fun h => absurd h hnm⟩
    simp only [Bool.eq_false_iff.mpr hc, Bool.false_eq_true, if_false]

theorem add_unit_preserves_inv {st : ParserState} (h : builderInv st) (u : MUnit) :
    builderInv (add_unit st u) := by
  obtain ⟨fid, hfresh, heq, _, _⟩ := add_unit_spec st u
  rw [heq]
  constructor
  · simp only [List.map_append, List.map_cons, List.map_nil]
    rw [h.1]
  · rw [List.nodup_append]
    exact ⟨h.2, List.nodup_singleton fid, by simpa using fun hmem => hfresh hmem⟩

theorem foldl_add_unit_inv :
    ∀ (us : List MUnit) (st : ParserState), builderInv st → builderInv (us.foldl add_unit st)
  | [], _, h => h
  | u :: us, st, h => by
    rw [List.foldl_cons]
    exact foldl_add_unit_inv us (add_unit st u) (add_unit_preserves_inv h u)

/-- C5: for every sequence of unit-creation calls starting from the fresh
builder state, the emitted unit ids are pairwise distinct; every `_add_unit`
call appends its unit at the end of the unit sequence under a final id that
is not yet taken; and when the candidate id collides, the final id is
`base_id + "_" + k` for the smallest suffix `k ≥ 1` that is free. -/
theorem c5_unique_ids_and_rename :
    (∀ us : List MUnit,
      ((us.foldl add_unit { unit_ids := [], units := [] }).units.map MUnit.id).Nodup) ∧
    (∀ (st : ParserState) (u : MUnit), ∃ fid, fid ∉ st.unit_ids ∧
      (add_unit st u).units = st.units ++ [{ u with id := fid }]) ∧
    (∀ (st : ParserState) (u : MUnit), u.id ∈ st.unit_ids →
      ∃ k, 1 ≤ k ∧
        (add_unit st u).units = st.units ++ [{ u with id := u.id ++ "_" ++ natToStr k }] ∧
        (u.id ++ "_" ++ natToStr k) ∉ st.unit_ids ∧
        (∀ j, 1 ≤ j → j < k → (u.id ++ "_" ++ natToStr j) ∈ st.unit_ids)) := by
  refine ⟨?_, ?_, ?_⟩
  · intro us
    have hinv := foldl_add_unit_inv us { unit_ids := [], units := [] } ⟨rfl, List.nodup_nil⟩
    rw [hinv.1]
    exact hinv.2
  · intro st u
    obtain ⟨fid, hfresh, heq, _, _⟩ := add_unit_spec st u
    exact ⟨fid, hfresh, by rw [heq]⟩
  · intro st u hmem
    obtain ⟨fid, hfresh, heq, _, hcol⟩ := add_unit_spec st u
    obtain ⟨k, hk1, hk2, hk3⟩ := hcol hmem
    exact ⟨k, hk1, by rw [heq, hk2], hk2 ▸ hfresh, hk3⟩

theorem c5_witness :
    (add_unit c5st c5u).units = [{ c5u with id := "art-1_2" }] ∧
    ("art-1_2" : String) ∉ c5st.unit_ids := by
  obtain ⟨k, hk1, hk2, hk3, hk4⟩ :=
    c5_unique_ids_and_rename.2.2 c5st c5u (by decide)
  have hkne1 : k ≠ 1 := by
    intro h1
    subst h1
    exact hk3 (by decide)
  have hkle : k ≤ 2 := by
    by_contra hgt
    have := hk4 2 (by omega) (by omega)
    revert this
    decide
  have hk : k = 2 := by omega
  subst hk
  constructor
  · rw [hk2]
    rfl
  · decide

/-! ### C6: bare contextual act references -/

/-- `unique_preceding_acts` is a left fold of the loop-iteration step over
the reversed prefix of the unit's citations. -/
theorem unique_preceding_acts_eq_src (citations : List Citation) (i : Nat)
    (cit : Citation) (t : String) :
    unique_preceding_acts citations i cit t =
      ((citations.take i).reverse).foldl (c6SrcStep cit t) [] := rfl

/-- A loop iteration either skips a non-qualifying prior or runs the
dict-insertion step on a qualifying one. -/
theorem c6SrcStep_eq (cit : Citation) (t : String)
    (acc : List ((String × String) × Citation)) (x : Citation) :
    c6SrcStep cit t acc x =
      if c6Qualifies cit t x then c6DedupStep t acc x else acc := by
  unfold c6SrcStep c6Qualifies c6DedupStep
  by_cases h1 : x.span_end > cit.span_start
  · simp [h1]
  · by_cases h2 : (x.citation_type == "eu_legislation") = true
    · by_cases h3 : (x.act_type == some t) = true
      · by_cases h4 : optTruthy x.act_number = true
        · simp [h1, h2, h3, h4, bne]
        · simp [h1, h2, h3, h4, bne]
      · simp [h1, h2, h3, bne]
    · simp [h1, h2, bne]

/-- Folding the loop step over a list is folding the insertion step over
its qualifying sublist. -/
theorem c6_fold_filter (cit : Citation) (t : String) :
    ∀ (l : List Citation) (acc : List ((String × String) × Citation)),
      l.foldl (c6SrcStep cit t) acc =
      (l.filter (c6Qualifies cit t)).foldl (c6DedupStep t) acc := by
  intro l
  induction l with
  | nil => intro acc; rfl
  | cons x xs ih =>
    intro acc
    rw [List.foldl_cons, c6SrcStep_eq]
    by_cases hq : c6Qualifies cit t x = true
    · rw [if_pos hq, List.filter_cons_of_pos hq, List.foldl_cons]
      exact ih (c6DedupStep t acc x)
    · rw [if_neg hq, List.filter_cons_of_neg hq]
      exact ih acc

/-- `unique_preceding_acts` deduplicates exactly the qualifying priors. -/
theorem unique_preceding_acts_eq (citations : List Citation) (i : Nat)
    (cit : Citation) (t : String) :
    unique_preceding_acts citations i cit t =
      (qualifyingPriors citations i cit t).foldl (c6DedupStep t) [] := by
  rw [unique_preceding_acts_eq_src]
  exact c6_fold_filter cit t ((citations.take i).reverse) []

/-- If the accumulator already holds key `(t, k)` and every remaining prior
carries act number `k`, the dedup fold adds nothing. -/
theorem c6_fold_const (t k : String) :
    ∀ (l : List Citation) (acc : List ((String × String) × Citation)),
      acc.any (fun pr => pr.1 == (t, k)) = true →
      (∀ q ∈ l, q.act_number.getD "" = k) →
      l.foldl (c6DedupStep t) acc = acc := by
  intro l
  induction l with
  | nil => intro acc _ _; rfl
  | cons x xs ih =>
    intro acc hacc hall
    have hx : x.act_number.getD "" = k := hall x (List.mem_cons_self x xs)
    rw [List.foldl_cons]
    have hstep : c6DedupStep t acc x = acc := by
      simp only [c6DedupStep, hx, hacc, if_true]
    rw [hstep]
    exact ih acc hacc (fun q hq => hall q (List.mem_cons_of_mem x hq))

/-- The dedup fold only ever appends to its accumulator. -/
theorem c6_fold_prefix (t : String) :
    ∀ (l : List Citation) (acc : List ((String × String) × Citation)),
      ∃ tl, l.foldl (c6DedupStep t) acc = acc ++ tl := by
  intro l
  induction l with
  | nil => intro acc; exact ⟨[], by simp⟩
  | cons x xs ih =>
    intro acc
    rw [List.foldl_cons]
    by_cases hmem : acc.any (fun pr => pr.1 == (t, x.act_number.getD "")) = true
    · have hstep : c6DedupStep t acc x = acc := by
        simp only [c6DedupStep, hmem, if_true]
      rw [hstep]
      exact ih acc
    · have hstep : c6DedupStep t acc x =
          acc ++ [((t, x.act_number.getD ""), x)] := by
        simp only [c6DedupStep, Bool.eq_false_iff.mpr hmem, Bool.false_eq_true, if_false]
      rw [hstep]
      obtain ⟨tl, htl⟩ := ih (acc ++ [((t, x.act_number.getD ""), x)])
      exact ⟨((t, x.act_number.getD ""), x) :: tl, by rw [htl]; simp⟩

/-- Every folded prior's key ends up present in the dedup fold's result. -/
theorem c6_fold_mem (t : String) :
    ∀ (l : List Citation) (acc : List ((String × String) × Citation)) (q : Citation),
      q ∈ l →
      (l.foldl (c6DedupStep t) acc).any
        (fun pr => pr.1 == (t, q.act_number.getD "")) = true := by
  intro l
  induction l with
  | nil => intro acc q hq; cases hq
  | cons x xs ih =>
    intro acc q hq
    rw [List.foldl_cons]
    rcases List.mem_cons.mp hq with rfl | hmem
    · have hkey : (c6DedupStep t acc q).any
          (fun pr => pr.1 == (t, q.act_number.getD "")) = true := by
        simp only [c6DedupStep]
        by_cases hmem2 : acc.any (fun pr => pr.1 == (t, q.act_number.getD "")) = true
        · simp [hmem2]
        · simp [Bool.eq_false_iff.mpr hmem2, List.any_append]
      obtain ⟨tl, htl⟩ := c6_fold_prefix t xs (c6DedupStep t acc q)
      rw [htl, List.any_append, hkey]
      rfl
    · exact ih (c6DedupStep t acc x) q hmem

/-- With no qualifying prior, no antecedent is found. -/
theorem c6_find_nil (citations : List Citation) (i : Nat)
    (cit : Citation) (t : String)
    (hqp : qualifyingPriors citations i cit t = []) :
    find_unique_preceding_eu_legislation_act citations i cit t = none := by
  unfold find_unique_preceding_eu_legislation_act
  rw [unique_preceding_acts_eq, hqp]
  rfl

/-- With at least one qualifying prior, the antecedent search returns the
most recent one exactly when every other qualifying prior carries the same
act number. -/
theorem c6_find_cons (citations : List Citation) (i : Nat)
    (cit : Citation) (t : String) (hd : Citation) (rest : List Citation)
    (hqp : qualifyingPriors citations i cit t = hd :: rest) :
    find_unique_preceding_eu_legislation_act citations i cit t =
      if rest.all (fun q => q.act_number.getD "" == hd.act_number.getD "")
      then some hd else none := by
  unfold find_unique_preceding_eu_legislation_act
  rw [unique_preceding_acts_eq, hqp, List.foldl_cons]
  have hstep : c6DedupStep t [] hd = [((t, hd.act_number.getD ""), hd)] := by
    simp [c6DedupStep]
  rw [hstep]
  by_cases hall : rest.all
      (fun q => q.act_number.getD "" == hd.act_number.getD "") = true
  · have hfold : rest.foldl (c6DedupStep t) [((t, hd.act_number.getD ""), hd)] =
        [((t, hd.act_number.getD ""), hd)] := by
      apply c6_fold_const t (hd.act_number.getD "")
      · simp
      · intro q hq
        exact beq_iff_eq.mp (List.all_eq_true.mp hall q hq)
    rw [hfold, hall]
    rfl
  · have hex : ∃ q ∈ rest, ¬(q.act_number.getD "" = hd.act_number.getD "") := by
      by_contra hno
      push_neg at hno
      exact hall (List.all_eq_true.mpr (fun q hq => beq_iff_eq.mpr (hno q hq)))
    obtain ⟨q, hq, hne⟩ := hex
    obtain ⟨tl, htl⟩ := c6_fold_prefix t rest [((t, hd.act_number.getD ""), hd)]
    have hmem := c6_fold_mem t rest [((t, hd.act_number.getD ""), hd)] q hq
    rcases tl with _ | ⟨e, tl2⟩
    · rw [htl] at hmem
      simp at hmem
      exact absurd hmem.symm hne
    · rw [htl]
      rw [Bool.eq_false_iff.mpr hall]
      rfl

/-- **C6** (counterexample): the claim ties reclassification to exactly one
preceding `eu_legislation` citation of the matching act type, but the
resolver keys its antecedent dict on `(act_type, act_number)`: with two
preceding directive citations that both cite Directive 2009/138, a trailing
"that Directive" is still reclassified to `eu_legislation`. -/
theorem c6_counterexample :
    rawLower c6rel = "that directive" ∧
    (([c6d1, c6d2, c6rel].take 2).filter (fun p =>
        decide (p.span_end ≤ c6rel.span_start) &&
        p.citation_type == "eu_legislation" &&
        p.act_type == some "directive")).length = 2 ∧
    c6rel.citation_type = "internal" ∧
    (reclassify_bare_relative_act_reference [c6d1, c6d2, c6rel] 2 c6rel
        "that directive").citation_type = "eu_legislation" := by
  refine ⟨rfl, rfl, rfl, rfl⟩

/-- **C6** (amended): a bare contextual reference ("that directive",
"that regulation", "that decision") is reclassified to `eu_legislation` iff
the qualifying preceding citations (ending at or before its start, external,
of the target act type, with a truthy act number) are nonempty and all cite
one distinct act number; the copied `act_type`/`act_number`/`act_year`/`celex`
come from the most recent qualifying prior, and otherwise the citation is
returned unchanged. -/
theorem c6_amended_reclassification (citations : List Citation) (i : Nat)
    (cit : Citation) (raw t : String)
    (ht : (BARE_CONTEXTUAL_ACT_TYPES.find? (fun pr => pr.1 == raw)).map
        (fun pr => pr.2) = some t) :
    (qualifyingPriors citations i cit t = [] →
      reclassify_bare_relative_act_reference citations i cit raw = cit) ∧
    (∀ hd rest, qualifyingPriors citations i cit t = hd :: rest →
      ((∀ q ∈ rest, q.act_number.getD "" = hd.act_number.getD "") →
        reclassify_bare_relative_act_reference citations i cit raw =
          { cit with
              citation_type := "eu_legislation"
              act_type := hd.act_type
              act_number := hd.act_number
              act_year := hd.act_year
              celex := hd.celex
              target_node_id := none }) ∧
      (∀ q ∈ rest, q.act_number.getD "" ≠ hd.act_number.getD "" →
        reclassify_bare_relative_act_reference citations i cit raw = cit)) := by
  refine ⟨?_, ?_⟩
  · intro hqp
    unfold reclassify_bare_relative_act_reference
    simp only [ht]
    rw [c6_find_nil citations i cit t hqp]
  · intro hd rest hqp
    refine ⟨?_, ?_⟩
    · intro hforall
      unfold reclassify_bare_relative_act_reference
      simp only [ht]
      rw [c6_find_cons citations i cit t hd rest hqp,
        List.all_eq_true.mpr (fun q hq => beq_iff_eq.mpr (hforall q hq))]
      rfl
    · intro q hq hne
      unfold reclassify_bare_relative_act_reference
      simp only [ht]
      rw [c6_find_cons citations i cit t hd rest hqp,
        Bool.eq_false_iff.mpr
          (fun hb => hne (beq_iff_eq.mp (List.all_eq_true.mp hb q hq)))]
      rfl

/-- C6 amended theorem instantiated: both qualifying priors cite act number
2009/138, so "that Directive" is reclassified with the most recent prior's
fields. -/
theorem c6_amended_witness :
    reclassify_bare_relative_act_reference [c6d1, c6d2, c6rel] 2 c6rel
        "that directive" =
      { c6rel with
          citation_type := "eu_legislation"
          act_type := some "directive"
          act_number := some "2009/138"
          act_year := some 2009
          celex := some "32009L0138"
          target_node_id := none } := by
  have happ := (c6_amended_reclassification [c6d1, c6d2, c6rel] 2 c6rel
      "that directive" "directive" rfl).2 c6d2 [c6d1] rfl
  exact happ.1 (fun q hq => by rcases List.mem_singleton.mp hq with rfl; rfl)

end Eurlex
